import Mathlib

/-!
Verification development for the GEET (Google Earth Engine Toolbox) library,
a JavaScript convenience layer over the Earth Engine API (src/geet.js).

The library never evaluates pixel data locally: every exported function builds
a lazily-evaluated remote computation graph.  We therefore embed images as
finite lists of named bands whose per-pixel values are syntactic expression
trees (`Px`): the embedding of an operation records exactly which bands and
which arithmetic the source composes, without interpreting the arithmetic.
The iterative-MAD test-zone code at the end of src/geet.js manipulates whole
Earth Engine objects (arrays, dictionaries, images); that part is embedded as
an untyped graph-node AST (`EE`) together with the JavaScript-level behaviour
(comma operator, numeric property access on non-array objects, eager argument
evaluation) that determines its control flow.
-/

namespace Geet

/-- Per-pixel value: a syntactic expression tree over the remote arithmetic
primitives that src/geet.js composes (`expression`, `normalizedDifference`,
`gte`, `add`, `log`, ...).  The library never evaluates these locally. -/
inductive Px where
  | const : ℚ → Px
  | add : Px → Px → Px
  | sub : Px → Px → Px
  | mul : Px → Px → Px
  | div : Px → Px → Px
  | log : Px → Px
  | sqrtv : Px → Px
  | powv : Px → ℚ → Px
  | gte : Px → Px → Px
  | pmax : Px → Px → Px
  | pmin : Px → Px → Px
  | sinv : Px → Px
  | cosv : Px → Px
  deriving DecidableEq, Repr

/-- A band: its name and the expression for each pixel of the band. -/
abbrev Band := String × List Px

/-- An Earth Engine image handle: named bands plus metadata properties
(`image.get(...)` reads these). -/
structure Image where
  bands : List Band
  props : List (String × Px)
  deriving DecidableEq, Repr

/-- First band with the given name, as `image.select(name)` resolves it. -/
def findBand (img : Image) (name : String) : Option Band :=
  img.bands.find? (fun b => b.1 == name)

/-- The pixel expressions of the named band (empty when the band is absent). -/
def bandVals (img : Image) (name : String) : List Px :=
  ((findBand img name).map Prod.snd).getD []

/-- `image.get(p)`: metadata property lookup. -/
def imgGet (img : Image) (p : String) : Px :=
  ((img.props.find? (fun q => q.1 == p)).map Prod.snd).getD (Px.const 0)

/-- `image.normalizedDifference([a, b])`: one band, pixelwise (a-b)/(a+b). -/
def normalizedDifference (img : Image) (a b : String) : Image :=
  ⟨[("nd", List.zipWith (fun x y => Px.div (Px.sub x y) (Px.add x y))
      (bandVals img a) (bandVals img b))], img.props⟩

/-- `.rename(name)` on the (single-band) images the library renames. -/
def rename1 (img : Image) (name : String) : Image :=
  ⟨img.bands.map (fun b => (name, b.2)), img.props⟩

/-- `image.select(name)`. -/
def selectBand (img : Image) (name : String) : Image :=
  ⟨((findBand img name).map (fun b => [b])).getD [], img.props⟩

/-- Apply a pixelwise operation to every band (`log`, `gte`, `subtract`...). -/
def mapBands (f : Px → Px) (img : Image) : Image :=
  ⟨img.bands.map (fun b => (b.1, b.2.map f)), img.props⟩

/-- `image.gte(threshold)` with a scalar threshold. -/
def gteN (img : Image) (t : ℚ) : Image :=
  mapBands (fun v => Px.gte v (Px.const t)) img

/-- `image.add(other)`: pixelwise sum of the matched bands. -/
def addImg (a b : Image) : Image :=
  ⟨List.zipWith (fun x y => (x.1, List.zipWith Px.add x.2 y.2)) a.bands b.bands,
   a.props⟩

/-- `image.addBands(...)`: append the new bands to the image. -/
def addBands (img : Image) (new : List Band) : Image :=
  ⟨img.bands ++ new, img.props⟩

/-- Pixelwise binary expression over two source bands. -/
def expr2 (f : Px → Px → Px) (a b : List Px) : List Px :=
  List.zipWith f a b

/-- Pixelwise ternary expression over three source bands. -/
def expr3 (f : Px → Px → Px → Px) : List Px → List Px → List Px → List Px
  | x :: xs, y :: ys, z :: zs => f x y z :: expr3 f xs ys zs
  | _, _, _ => []

/-- JavaScript `String.prototype.toLowerCase` on the basic latin range the
library uses, character by character (this is also core `Char.toLower`). -/
def jsLowerChar (c : Char) : Char :=
  if 65 ≤ c.toNat ∧ c.toNat ≤ 90 then Char.ofNat (c.toNat + 32) else c

/-- JavaScript `s.toLowerCase()`. -/
def jsToLowerCase (s : String) : String :=
  ⟨s.data.map jsLowerChar⟩

/--
`exports.simpleNDVIChangeDetection` (src/geet.js:188): NDVI per sensor,
masks with the threshold and sums the two masks; the unrecognized-sensor
branch prints an error and exits with no value (`return;`).
-/
def simpleNDVIChangeDetection (img1 img2 : Image) (sensor : String)
    (threshold : ℚ) : Option Image :=
  let pair : Option (Image × Image) :=
    if sensor = "L8" then
      some (rename1 (normalizedDifference img1 "B5" "B4") "NDVI",
            rename1 (normalizedDifference img2 "B5" "B4") "NDVI")
    else if sensor = "L5" ∨ sensor = "L7" then
      some (rename1 (normalizedDifference img1 "B4" "B3") "NDVI",
            rename1 (normalizedDifference img2 "B4" "B3") "NDVI")
    else if sensor = "S2" then
      some (rename1 (normalizedDifference img1 "B8" "B4") "NDVI",
            rename1 (normalizedDifference img2 "B8" "B4") "NDVI")
    else none
  pair.map (fun p =>
    let i_ndvi_1_mask := gteN (selectBand p.1 "NDVI") threshold
    let i_ndvi_2_mask := gteN (selectBand p.2 "NDVI") threshold
    addImg i_ndvi_1_mask i_ndvi_2_mask)

/-- `exports.simpleNDWIChangeDetection` (src/geet.js:229). -/
def simpleNDWIChangeDetection (img1 img2 : Image) (sensor : String)
    (threshold : ℚ) : Option Image :=
  let pair : Option (Image × Image) :=
    if sensor = "L8" then
      some (rename1 (normalizedDifference img1 "B4" "B6") "NDWI",
            rename1 (normalizedDifference img2 "B4" "B6") "NDWI")
    else if sensor = "L5" ∨ sensor = "L7" then
      some (rename1 (normalizedDifference img1 "B3" "B5") "NDWI",
            rename1 (normalizedDifference img2 "B3" "B5") "NDWI")
    else if sensor = "S2" then
      some (rename1 (normalizedDifference img1 "B4" "B11") "NDWI",
            rename1 (normalizedDifference img2 "B4" "B11") "NDWI")
    else none
  pair.map (fun p =>
    let i_ndwi_1_mask := gteN (selectBand p.1 "NDWI") threshold
    let i_ndwi_2_mask := gteN (selectBand p.2 "NDWI") threshold
    addImg i_ndwi_1_mask i_ndwi_2_mask)

/-- `exports.simpleNDBIChangeDetection` (src/geet.js:270). -/
def simpleNDBIChangeDetection (img1 img2 : Image) (sensor : String)
    (threshold : ℚ) : Option Image :=
  let pair : Option (Image × Image) :=
    if sensor = "L8" then
      some (rename1 (normalizedDifference img1 "B6" "B5") "NDBI",
            rename1 (normalizedDifference img2 "B6" "B5") "NDBI")
    else if sensor = "L5" ∨ sensor = "L7" then
      some (rename1 (normalizedDifference img1 "B5" "B4") "NDBI",
            rename1 (normalizedDifference img2 "B5" "B4") "NDBI")
    else if sensor = "S2" then
      some (rename1 (normalizedDifference img1 "B11" "B8") "NDBI",
            rename1 (normalizedDifference img2 "B11" "B8") "NDBI")
    else none
  pair.map (fun p =>
    let i_ndbi_1_mask := gteN (selectBand p.1 "NDBI") threshold
    let i_ndbi_2_mask := gteN (selectBand p.2 "NDBI") threshold
    addImg i_ndbi_1_mask i_ndbi_2_mask)

/-- `image.normalizedDifference([a, b]).rename(name)`, the band it appends. -/
def ndBand (img : Image) (a b name : String) : List Band :=
  (rename1 (normalizedDifference img a b) name).bands

/--
`exports.landsatIndices` (src/geet.js:492): with an index argument, a switch
over the exact index name with per-sensor band pairs; with no index argument
(`index != null` false), the all-indices branch.  Arms that fall through the
switch (unknown index, or wrong sensor inside an arm) print an error and end
without a return value.
-/
def landsatSwitch (image : Image) (sensor : String) (idx : String) :
    Option Image :=
  match idx with
  | "NDVI" =>
      if sensor = "L5" ∨ sensor = "L7" then
        some (addBands image (ndBand image "B4" "B3" "NDVI"))
      else if sensor = "L8" then
        some (addBands image (ndBand image "B5" "B4" "NDVI"))
      else if sensor = "S2" then
        some (addBands image (ndBand image "B8" "B4" "NDVI"))
      else none
  | "NDWI" =>
      if sensor = "L5" ∨ sensor = "L7" then
        some (addBands image (ndBand image "B3" "B5" "NDWI"))
      else if sensor = "L8" then
        some (addBands image (ndBand image "B4" "B6" "NDWI"))
      else if sensor = "S2" then
        some (addBands image (ndBand image "B4" "B11" "NDWI"))
      else none
  | "NDBI" =>
      if sensor = "L5" ∨ sensor = "L7" then
        some (addBands image (ndBand image "B5" "B4" "NDBI"))
      else if sensor = "L8" then
        some (addBands image (ndBand image "B6" "B5" "NDBI"))
      else if sensor = "S2" then
        some (addBands image (ndBand image "B11" "B8" "NDBI"))
      else none
  | "NRVI" =>
      if sensor = "L5" ∨ sensor = "L7" then
        some (addBands image [("NRVI",
          expr2 (fun NIR RED =>
              Px.div (Px.sub (Px.div RED NIR) (Px.const 1))
                     (Px.add (Px.div RED NIR) (Px.const 1)))
            (bandVals image "B4") (bandVals image "B3"))])
      else if sensor = "L8" then
        some (addBands image [("NRVI",
          expr2 (fun NIR RED =>
              Px.div (Px.sub (Px.div RED NIR) (Px.const 1))
                     (Px.add (Px.div RED NIR) (Px.const 1)))
            (bandVals image "B5") (bandVals image "B4"))])
      else none
  | "EVI" =>
      if sensor = "L5" ∨ sensor = "L7" then
        some (addBands image [("EVI",
          expr3 (fun NIR RED BLUE =>
              Px.div (Px.mul (Px.const 2.5) (Px.sub NIR RED))
                (Px.add (Px.sub (Px.add NIR (Px.mul (Px.const 6) RED))
                   (Px.mul (Px.const 7.5) BLUE)) (Px.const 1)))
            (bandVals image "B4") (bandVals image "B3") (bandVals image "B1"))])
      else if sensor = "L8" then
        some (addBands image [("EVI",
          expr3 (fun NIR RED BLUE =>
              Px.div (Px.mul (Px.const 2.5) (Px.sub NIR RED))
                (Px.add (Px.sub (Px.add NIR (Px.mul (Px.const 6) RED))
                   (Px.mul (Px.const 7.5) BLUE)) (Px.const 1)))
            (bandVals image "B5") (bandVals image "B4") (bandVals image "B2"))])
      else if sensor = "S2" then
        some (addBands image [("EVI",
          expr3 (fun NIR RED BLUE =>
              Px.div (Px.mul (Px.const 2.5) (Px.sub NIR RED))
                (Px.add (Px.sub (Px.add NIR (Px.mul (Px.const 6) RED))
                   (Px.mul (Px.const 7.5) BLUE)) (Px.const 1)))
            (bandVals image "B8") (bandVals image "B4") (bandVals image "B2"))])
      else none
  | "SAVI" =>
      if sensor = "L5" ∨ sensor = "L7" then
        some (addBands image [("SAVI",
          expr2 (fun NIR RED =>
              Px.div (Px.mul (Px.add (Px.const 1) (Px.const 0.2)) (Px.sub NIR RED))
                     (Px.add (Px.add NIR RED) (Px.const 0.2)))
            (bandVals image "B4") (bandVals image "B3"))])
      else if sensor = "L8" then
        some (addBands image [("SAVI",
          expr2 (fun NIR RED =>
              Px.div (Px.mul (Px.add (Px.const 1) (Px.const 0.2)) (Px.sub NIR RED))
                     (Px.add (Px.add NIR RED) (Px.const 0.2)))
            (bandVals image "B5") (bandVals image "B4"))])
      else if sensor = "S2" then
        some (addBands image [("SAVI",
          expr2 (fun NIR RED =>
              Px.div (Px.mul (Px.add (Px.const 1) (Px.const 0.2)) (Px.sub NIR RED))
                     (Px.add (Px.add NIR RED) (Px.const 0.2)))
            (bandVals image "B8") (bandVals image "B4"))])
      else none
  | "GOSAVI" =>
      if sensor = "L5" ∨ sensor = "L7" then
        some (addBands image [("GOSAVI",
          expr2 (fun NIR GREEN =>
              Px.div (Px.sub NIR GREEN)
                     (Px.add (Px.add NIR GREEN) (Px.const 0.16)))
            (bandVals image "B4") (bandVals image "B2"))])
      else if sensor = "L8" then
        some (addBands image [("GOSAVI",
          expr2 (fun NIR GREEN =>
              Px.div (Px.sub NIR GREEN)
                     (Px.add (Px.add NIR GREEN) (Px.const 0.16)))
            (bandVals image "B5") (bandVals image "B3"))])
      else if sensor = "S2" then
        some (addBands image [("GOSAVI",
          expr2 (fun NIR GREEN =>
              Px.div (Px.sub NIR GREEN)
                     (Px.add (Px.add NIR GREEN) (Px.const 0.16)))
            (bandVals image "B8") (bandVals image "B3"))])
      else none
  | _ => none

/-- The all-indices branch of `exports.landsatIndices` (src/geet.js:666-752). -/
def landsatAll (image : Image) (sensor : String) : Option Image :=
  if sensor = "L5" ∨ sensor = "L7" then
    some (addBands image
      (ndBand image "B4" "B3" "NDVI" ++
       ndBand image "B2" "B5" "NDWI" ++
       ndBand image "B5" "B4" "NDBI" ++
       [("NRVI",
         expr2 (fun NIR RED =>
             Px.div (Px.sub (Px.div RED NIR) (Px.const 1))
                    (Px.add (Px.div RED NIR) (Px.const 1)))
           (bandVals image "B4") (bandVals image "B3")),
        ("EVI",
         expr3 (fun NIR RED BLUE =>
             Px.div (Px.mul (Px.const 2.5) (Px.sub NIR RED))
               (Px.add (Px.sub (Px.add NIR (Px.mul (Px.const 6) RED))
                  (Px.mul (Px.const 7.5) BLUE)) (Px.const 1)))
           (bandVals image "B4") (bandVals image "B3") (bandVals image "B1")),
        ("SAVI",
         expr2 (fun NIR RED =>
             Px.div (Px.mul (Px.add (Px.const 1) (Px.const 0.2)) (Px.sub NIR RED))
                    (Px.add (Px.add NIR RED) (Px.const 0.2)))
           (bandVals image "B4") (bandVals image "B3")),
        ("GOSAVI",
         expr2 (fun NIR GREEN =>
             Px.div (Px.sub NIR GREEN)
                    (Px.add (Px.add NIR GREEN) (Px.const 0.16)))
           (bandVals image "B4") (bandVals image "B2"))]))
  else if sensor = "L8" then
    some (addBands image
      (ndBand image "B5" "B4" "NDVI" ++
       ndBand image "B3" "B6" "NDWI" ++
       ndBand image "B6" "B5" "NDBI" ++
       [("NRVI",
         expr2 (fun NIR RED =>
             Px.div (Px.sub (Px.div RED NIR) (Px.const 1))
                    (Px.add (Px.div RED NIR) (Px.const 1)))
           (bandVals image "B5") (bandVals image "B4")),
        ("EVI",
         expr3 (fun NIR RED BLUE =>
             Px.div (Px.mul (Px.const 2.5) (Px.sub NIR RED))
               (Px.add (Px.sub (Px.add NIR (Px.mul (Px.const 6) RED))
                  (Px.mul (Px.const 7.5) BLUE)) (Px.const 1)))
           (bandVals image "B5") (bandVals image "B4") (bandVals image "B2")),
        ("SAVI",
         expr2 (fun NIR RED =>
             Px.div (Px.mul (Px.add (Px.const 1) (Px.const 0.2)) (Px.sub NIR RED))
                    (Px.add (Px.add NIR RED) (Px.const 0.2)))
           (bandVals image "B5") (bandVals image "B4")),
        ("GOSAVI",
         expr2 (fun NIR GREEN =>
             Px.div (Px.sub NIR GREEN)
                    (Px.add (Px.add NIR GREEN) (Px.const 0.16)))
           (bandVals image "B5") (bandVals image "B3"))]))
  else if sensor = "S2" then
    some (addBands image
      (ndBand image "B8" "B4" "NDVI" ++
       ndBand image "B3" "B11" "NDWI" ++
       ndBand image "B11" "B8" "NDBI" ++
       [("EVI",
         expr3 (fun NIR RED BLUE =>
             Px.div (Px.mul (Px.const 2.5) (Px.sub NIR RED))
               (Px.add (Px.sub (Px.add NIR (Px.mul (Px.const 6) RED))
                  (Px.mul (Px.const 7.5) BLUE)) (Px.const 1)))
           (bandVals image "B8") (bandVals image "B4") (bandVals image "B2")),
        ("SAVI",
         expr2 (fun NIR RED =>
             Px.div (Px.mul (Px.add (Px.const 1) (Px.const 0.2)) (Px.sub NIR RED))
                    (Px.add (Px.add NIR RED) (Px.const 0.2)))
           (bandVals image "B8") (bandVals image "B4")),
        ("GOSAVI",
         expr2 (fun NIR GREEN =>
             Px.div (Px.sub NIR GREEN)
                    (Px.add (Px.add NIR GREEN) (Px.const 0.16)))
           (bandVals image "B8") (bandVals image "B3"))]))
  else none

/--
`exports.landsatIndices` (src/geet.js:492): with an index argument
(`index != null`), the switch over the exact index name; otherwise the
all-indices branch.
-/
def landsatIndices (image : Image) (sensor : String) (index : Option String) :
    Option Image :=
  match index with
  | some idx => landsatSwitch image sensor idx
  | none => landsatAll image sensor

/--
The switch of `exports.sentinel2Indices` (src/geet.js:801-933), taken on the
already-lowercased index string.  An unknown string matches no case and the
function ends with no return value.
-/
def s2Index (image : Image) (idx : String) : Option Image :=
  match idx with
  | "ndvi" => some (addBands image (ndBand image "B8" "B4" "NDVI"))
  | "ndwi" => some (addBands image (ndBand image "B3" "B8" "NDWI"))
  | "ndbi" => some (addBands image (ndBand image "B11" "B8" "NDBI"))
  | "mndwi" => some (addBands image (ndBand image "B3" "B12" "MNDWI"))
  | "mndvi" => some (addBands image (ndBand image "B9" "B12" "MNDVI"))
  | "ngrdi" => some (addBands image (ndBand image "B3" "B5" "NGRDI"))
  | "ndsi" => some (addBands image (ndBand image "B11" "B12" "NDSI"))
  | "ri" => some (addBands image (ndBand image "B5" "B3" "RI"))
  | "ndmi" => some (addBands image (ndBand image "B9" "B12" "NDMI"))
  | "gndvi" => some (addBands image (ndBand image "B9" "B3" "GNDVI"))
  | "bndvi" => some (addBands image (ndBand image "B9" "B1" "BNDVI"))
  | "nbr" => some (addBands image (ndBand image "B9" "B12" "NBR"))
  | "ppr" => some (addBands image (ndBand image "B9" "B12" "PPR"))
  | "ndre" => some (addBands image (ndBand image "B9" "B5" "NDRE"))
  | "lci" => some (addBands image (ndBand image "B8" "B5" "LCI"))
  | "savi" => some (addBands image [("SAVI",
      expr2 (fun NIR RED =>
          Px.div (Px.mul (Px.add (Px.const 1) (Px.const 0.5)) (Px.sub NIR RED))
                 (Px.add (Px.add NIR RED) (Px.const 0.5)))
        (bandVals image "B8") (bandVals image "B4"))])
  | "gosavi" => some (addBands image [("GOSAVI",
      expr2 (fun NIR GREEN =>
          Px.div (Px.sub NIR GREEN)
                 (Px.add (Px.add NIR GREEN) (Px.const 0.16)))
        (bandVals image "B8") (bandVals image "B3"))])
  | "evi" => some (addBands image [("EVI",
      expr3 (fun NIR RED BLUE =>
          Px.mul (Px.const 2.5)
            (Px.div (Px.sub NIR RED)
              (Px.add (Px.sub (Px.add NIR (Px.mul (Px.const 6) RED))
                 (Px.mul (Px.const 7.5) BLUE)) (Px.const 1))))
        (bandVals image "B8") (bandVals image "B4") (bandVals image "B2"))])
  | "evi2" => some (addBands image [("EVI2",
      expr2 (fun NIR RED =>
          Px.mul (Px.const 2.4)
            (Px.div (Px.sub NIR RED)
              (Px.add (Px.add NIR (Px.mul (Px.const 2.4) RED)) (Px.const 1))))
        (bandVals image "B8") (bandVals image "B4"))])
  | "gemi" => some (addBands image [("GEMI",
      expr2 (fun NIR RED =>
          Px.sub
            (Px.mul
              (Px.div
                (Px.add (Px.add (Px.mul (Px.sub (Px.powv NIR 2) (Px.powv RED 2))
                                        (Px.const 2))
                                (Px.mul NIR (Px.const 1.5)))
                        (Px.mul RED (Px.const 0.5)))
                (Px.add (Px.add NIR RED) (Px.const 0.5)))
              (Px.sub (Px.const 1)
                (Px.mul
                  (Px.div
                    (Px.add (Px.add (Px.mul (Px.sub (Px.powv NIR 2) (Px.powv RED 2))
                                            (Px.const 2))
                                    (Px.mul NIR (Px.const 1.5)))
                            (Px.mul RED (Px.const 0.5)))
                    (Px.add (Px.add NIR RED) (Px.const 0.5)))
                  (Px.const 0.25))))
            (Px.div (Px.sub RED (Px.const 0.125)) (Px.sub (Px.const 1) RED)))
        (bandVals image "B8") (bandVals image "B4"))])
  | "rvi" => some (addBands image [("RVI",
      expr2 (fun NIR RED => Px.div RED NIR)
        (bandVals image "B8") (bandVals image "B4"))])
  | "logr" => some (addBands image [("logR",
      expr2 (fun NIR RED => Px.log (Px.div RED NIR))
        (bandVals image "B8") (bandVals image "B4"))])
  | "tvi" => some (addBands image [("TVI",
      (bandVals (normalizedDifference image "B8" "B4") "nd").map
        (fun NDVI => Px.sqrtv (Px.add NDVI (Px.const 0.5))))])
  | _ => none

/-- The all-indices branch of `exports.sentinel2Indices` (src/geet.js:936-995). -/
def s2AllIndices (image : Image) : Image :=
  addBands image
    (ndBand image "B8" "B4" "NDVI" ++
     ndBand image "B3" "B8" "NDWI" ++
     ndBand image "B11" "B8" "NDBI" ++
     ndBand image "B3" "B12" "MNDWI" ++
     ndBand image "B9" "B12" "MNDVI" ++
     ndBand image "B3" "B5" "NGRDI" ++
     ndBand image "B11" "B12" "NDSI" ++
     ndBand image "B5" "B3" "RI" ++
     ndBand image "B9" "B12" "NDMI" ++
     ndBand image "B9" "B3" "GNDVI" ++
     ndBand image "B9" "B1" "BNDVI" ++
     ndBand image "B9" "B12" "NBR" ++
     ndBand image "B9" "B12" "PPR" ++
     ndBand image "B9" "B5" "NDRE" ++
     ndBand image "B8" "B5" "LCI" ++
     [("SAVI",
       expr2 (fun NIR RED =>
           Px.div (Px.mul (Px.add (Px.const 1) (Px.const 0.5)) (Px.sub NIR RED))
                  (Px.add (Px.add NIR RED) (Px.const 0.5)))
         (bandVals image "B8") (bandVals image "B4")),
      ("GOSAVI",
       expr2 (fun NIR GREEN =>
           Px.div (Px.sub NIR GREEN)
                  (Px.add (Px.add NIR GREEN) (Px.const 0.16)))
         (bandVals image "B8") (bandVals image "B3")),
      ("EVI",
       expr3 (fun NIR RED BLUE =>
           Px.mul (Px.const 2.5)
             (Px.div (Px.sub NIR RED)
               (Px.add (Px.sub (Px.add NIR (Px.mul (Px.const 6) RED))
                  (Px.mul (Px.const 7.5) BLUE)) (Px.const 1))))
         (bandVals image "B8") (bandVals image "B4") (bandVals image "B2")),
      ("EVI2",
       expr2 (fun NIR RED =>
           Px.mul (Px.const 2.4)
             (Px.div (Px.sub NIR RED)
               (Px.add (Px.add NIR (Px.mul (Px.const 2.4) RED)) (Px.const 1))))
         (bandVals image "B8") (bandVals image "B4")),
      ("RVI",
       expr2 (fun NIR RED => Px.div RED NIR)
         (bandVals image "B8") (bandVals image "B4")),
      ("logR",
       expr2 (fun NIR RED => Px.log (Px.div RED NIR))
         (bandVals image "B8") (bandVals image "B4")),
      ("TVI",
       (bandVals (normalizedDifference image "B8" "B4") "nd").map
         (fun NDVI => Px.sqrtv (Px.add NDVI (Px.const 0.5))))])

/--
`exports.sentinel2Indices` (src/geet.js:798): lowercases the index argument
and switches on it; with no index argument the all-indices image is built.
-/
def sentinel2Indices (image : Image) (index : Option String) : Option Image :=
  match index with
  | some idx => s2Index image (jsToLowerCase idx)
  | none => some (s2AllIndices image)

/-- The 23 index names the sentinel2Indices switch recognizes. -/
def s2SupportedIndices : List String :=
  ["ndvi", "ndwi", "ndbi", "mndwi", "mndvi", "ngrdi", "ndsi", "ri", "ndmi",
   "gndvi", "bndvi", "nbr", "ppr", "ndre", "lci", "savi", "gosavi", "evi",
   "evi2", "gemi", "rvi", "logr", "tvi"]

/-- The module-level COLOR object (src/geet.js:334-341), the only module
state of the library.  Nothing in src/geet.js ever writes to it. -/
def COLOR : List (String × String) :=
  [("WATER", "0066ff"), ("FOREST", "009933"), ("PASTURE", "99cc00"),
   ("URBAN", "ff0000"), ("SHADOW", "000000"), ("NULL", "808080")]

/-- Read an entry of a COLOR-shaped table (JavaScript property access). -/
def tabGet (tab : List (String × String)) (k : String) : Option String :=
  (tab.find? (fun p => p.1 == k)).map Prod.snd

/--
`exports.color` (src/geet.js:355) threaded through the module state it reads:
lowercase the argument, switch over the six color names, return the COLOR
entry, or the fixed error string on any other input.  The state comes back
unchanged: the function only reads COLOR.
-/
def colorRun (tab : List (String × String)) (c : String) :
    String × List (String × String) :=
  match jsToLowerCase c with
  | "water" => ((tabGet tab "WATER").getD "", tab)
  | "forest" => ((tabGet tab "FOREST").getD "", tab)
  | "pasture" => ((tabGet tab "PASTURE").getD "", tab)
  | "urban" => ((tabGet tab "URBAN").getD "", tab)
  | "shadow" => ((tabGet tab "SHADOW").getD "", tab)
  | "null" => ((tabGet tab "NULL").getD "", tab)
  | _ => ("Error: Valid options are water, forest, pasture, urban, shadow or null! Remember to pass the argument as a string.", tab)

/-- `exports.color` on the library state COLOR. -/
def color (c : String) : String :=
  (colorRun COLOR c).1

/--
`exports.plotClass` (src/geet.js:446): a switch on the number of classes;
every case only calls `Map.addLayer` (or prints an error) and breaks, so the
function returns no value on any input.  The palettes read the COLOR table
(case 2 reads the nonexistent COLOR.NULO entry).
-/
def plotClassRun (tab : List (String × String)) (image : Image)
    (numClasses : ℕ) (title : Option String) :
    Option Image × List (String × String) :=
  let _title := title.getD "class_final"
  match numClasses with
  | 2 =>
    let _palette := [tabGet tab "SHADOW", tabGet tab "NULO"]
    (none, tab)
  | 3 =>
    let _palette := [tabGet tab "URBAN", tabGet tab "FOREST", tabGet tab "WATER"]
    (none, tab)
  | 4 =>
    let _palette := [tabGet tab "URBAN", tabGet tab "FOREST",
                     tabGet tab "PASTURE", tabGet tab "WATER"]
    (none, tab)
  | 5 =>
    let _palette := [tabGet tab "URBAN", tabGet tab "FOREST",
                     tabGet tab "PASTURE", tabGet tab "WATER", tabGet tab "SHADOW"]
    (none, tab)
  | _ => (none, tab)

/-- `exports.plotClass` on the library state COLOR. -/
def plotClass (image : Image) (numClasses : ℕ) (title : Option String) :
    Option Image :=
  (plotClassRun COLOR image numClasses title).1

/--
`exports.exportImg` (src/geet.js:2182): fills in the default scale and
maxPixels and calls `Export.image.toDrive`; it has no return statement, so
it returns no value on any input.
-/
def exportImg (image : Image) (outFilename : String)
    (scale maxPixels : Option ℚ) : Option Image :=
  let _scale := scale.getD 30
  let _maxPixels := maxPixels.getD 1e10
  none

/-- Reduce a list of band value-lists pixelwise with `f` (what
`image.reduce(reducer)` does: it folds across the BANDS at each pixel). -/
def bandFold (f : Px → Px → Px) : List (List Px) → List Px
  | [] => []
  | v :: vs => vs.foldl (fun acc w => List.zipWith f acc w) v

/-- `exports.max` (src/geet.js:1995): `image.reduce(ee.Reducer.max())`, the
pixelwise across-band maximum, one output band named max. -/
def max (image : Image) : Image :=
  ⟨[("max", bandFold Px.pmax (image.bands.map Prod.snd))], image.props⟩

/-- `exports.min` (src/geet.js:2012): `image.reduce(ee.Reducer.min())`. -/
def min (image : Image) : Image :=
  ⟨[("min", bandFold Px.pmin (image.bands.map Prod.snd))], image.props⟩

/--
Modelled from the spec: the glossary defines a Reducer as "a server-side
aggregation primitive (max, mean, covariance, etc.) applied over image
pixels within a region", so the maximum value of an image is the single
value aggregating every pixel of every band (what `reduceRegion` with
`ee.Reducer.max()` yields).  src/geet.js contains no such regional maximum:
`exports.max` calls `image.reduce`, which is the across-band pixelwise
reduction embedded in `Geet.max`.
-/
def specRegionMax (image : Image) : Px :=
  match (image.bands.map Prod.snd).flatten with
  | [] => Px.const 0
  | v :: vs => vs.foldl Px.pmax v

/--
`exports.toaRadiance` (src/geet.js:1120): selects band B&lt;n&gt;, reads the
RADIANCE_MULT/ADD metadata, computes (Ml * band) + Al, renames the result
TOA_Radiance and appends it to the input image.
-/
def toaRadiance (image : Image) (band : ℕ) : Image :=
  let band_to_toa := selectBand image ("B" ++ toString band)
  let radiance_multi_band := imgGet image ("RADIANCE_MULT_BAND_" ++ toString band)
  let radiance_add_band := imgGet image ("RADIANCE_ADD_BAND_" ++ toString band)
  let toa_radiance := rename1
    (mapBands (fun b => Px.add (Px.mul radiance_multi_band b) radiance_add_band)
      band_to_toa) "TOA_Radiance"
  addBands image toa_radiance.bands

/--
`exports.toaReflectance` (src/geet.js:1153): same computation with the
REFLECTANCE metadata, but the function returns only the computed band
(`return toa;`), not the input image with the band appended.
-/
def toaReflectance (image : Image) (band : ℕ) : Image :=
  let band_to_toa := selectBand image ("B" ++ toString band)
  let reflectance_multi_band := imgGet image ("REFLECTANCE_MULT_BAND_" ++ toString band)
  let reflectance_add_band := imgGet image ("REFLECTANCE_ADD_BAND_" ++ toString band)
  let toa := rename1
    (mapBands (fun v => Px.add (Px.mul reflectance_multi_band v) reflectance_add_band)
      band_to_toa) ("B" ++ toString band ++ "_TOA_Reflectance")
  toa

/--
`exports.brightnessTempL8_K` (src/geet.js:1448).  The first line
`var single = (arguments[1] !== void 1 ? false : true);` discards the
caller's value: `single` becomes true exactly when the argument was omitted
(`void 1` is undefined).  Both branches then run the identical band-10
computation; the double-band branch also reads the B11 constants but never
uses them.
-/
def brightnessTempL8_K (image : Image) (single : Option Bool) : Image :=
  let single := match single with
    | some _ => false
    | none => true
  if single = true then
    let K1_10 := imgGet image "K1_CONSTANT_BAND_10"
    let K2_10 := imgGet image "K2_CONSTANT_BAND_10"
    let _K1_11 := imgGet image "K1_CONSTANT_BAND_11"
    let _K2_11 := imgGet image "K2_CONSTANT_BAND_11"
    let brightness_temp_semlog := mapBands
      (fun B10 => Px.add (Px.div K1_10 B10) (Px.const 1))
      (selectBand image "TOA_Radiance")
    let brightness_temp_log := mapBands Px.log brightness_temp_semlog
    let brightness_temp := rename1
      (mapBands (fun l => Px.div K2_10 l) brightness_temp_log)
      "Brightness_Temperature"
    addBands image brightness_temp.bands
  else
    let K1_10 := imgGet image "K1_CONSTANT_BAND_10"
    let K2_10 := imgGet image "K2_CONSTANT_BAND_10"
    let brightness_temp_semlog := mapBands
      (fun B10 => Px.add (Px.div K1_10 B10) (Px.const 1))
      (selectBand image "TOA_Radiance")
    let brightness_temp_log := mapBands Px.log brightness_temp_semlog
    let brightness_temp := rename1
      (mapBands (fun l => Px.div K2_10 l) brightness_temp_log)
      "Brightness_Temperature"
    addBands image brightness_temp.bands

/--
`exports.brightnessTempL8_C` (src/geet.js:1522): identical to the Kelvin
version in both branches, with a final `.subtract(273.5)` before appending.
-/
def brightnessTempL8_C (image : Image) (single : Option Bool) : Image :=
  let single := match single with
    | some _ => false
    | none => true
  if single = false then
    let K1_10 := imgGet image "K1_CONSTANT_BAND_10"
    let K2_10 := imgGet image "K2_CONSTANT_BAND_10"
    let _K1_11 := imgGet image "K1_CONSTANT_BAND_11"
    let _K2_11 := imgGet image "K2_CONSTANT_BAND_11"
    let brightness_temp_semlog := mapBands
      (fun B10 => Px.add (Px.div K1_10 B10) (Px.const 1))
      (selectBand image "TOA_Radiance")
    let brightness_temp_log := mapBands Px.log brightness_temp_semlog
    let brightness_temp := rename1
      (mapBands (fun l => Px.div K2_10 l) brightness_temp_log)
      "Brightness_Temperature"
    let brightness_temp_celsius := mapBands
      (fun v => Px.sub v (Px.const 273.5)) brightness_temp
    addBands image brightness_temp_celsius.bands
  else
    let K1_10 := imgGet image "K1_CONSTANT_BAND_10"
    let K2_10 := imgGet image "K2_CONSTANT_BAND_10"
    let brightness_temp_semlog := mapBands
      (fun B10 => Px.add (Px.div K1_10 B10) (Px.const 1))
      (selectBand image "TOA_Radiance")
    let brightness_temp_log := mapBands Px.log brightness_temp_semlog
    let brightness_temp := rename1
      (mapBands (fun l => Px.div K2_10 l) brightness_temp_log)
      "Brightness_Temperature"
    let brightness_temp_celsius := mapBands
      (fun v => Px.sub v (Px.const 273.5)) brightness_temp
    addBands image brightness_temp_celsius.bands

/--
Untyped Earth Engine computation-graph node: the handle every remote call
returns.  A method call `x.m(a, b)` builds `node "m" [x, a, b]`; constructor
calls such as `ee.Array(x)` build `node "Array" [x]`.  Numbers and strings
embed as leaves.
-/
inductive EE where
  | num : ℚ → EE
  | str : String → EE
  | bool : Bool → EE
  | node : String → List EE → EE

/--
JavaScript numeric property access `v[i]` on an Earth Engine object handle:
such objects define no numeric properties, so the result is always
undefined (`none`).  (JavaScript arrays are embedded as Lean pairs/lists,
where indexing does work; this function is only for ee object handles.)
-/
def jsIndex (_v : EE) (_i : ℕ) : Option EE :=
  none

/-- A JavaScript method call on a possibly-undefined receiver: calling any
method of `undefined` throws a TypeError, otherwise the remote call builds
a graph node. -/
def jsMethod (recv : Option EE) (m : String) (args : List EE) : Except String EE :=
  match recv with
  | none => Except.error "TypeError: cannot call a method of undefined"
  | some r => Except.ok (EE.node m (r :: args))

/--
`exports.svm` (src/geet.js:32): defaults for kernelType and scale, then a
chain of remote calls (sampleRegions, ee.Classifier.svm, train, classify).
-/
def svm (image trainingData : EE) (fieldName : String)
    (kernelType : Option String) (scale : Option ℚ) : EE :=
  let kernelType := kernelType.getD "RBF"
  let scale := scale.getD 30
  let training := EE.node "sampleRegions"
    [image, trainingData, EE.str fieldName, EE.num scale]
  let classifier := EE.node "Classifier.svm" [EE.str kernelType, EE.num 10]
  let trained := EE.node "train" [classifier, training, EE.str fieldName]
  EE.node "classify" [image, trained]

/--
`geneiv` (src/geet.js:2292): the generalized-eigenproblem helper of the MAD
routine.  Its last line is `return (lambdas, eigenvecs)`: in JavaScript the
parenthesized comma expression evaluates both operands and yields only the
LAST one, so the function returns a single ee.Array handle (the eigenvector
matrix), not a pair.
-/
def geneiv (C B : EE) : EE :=
  let C := EE.node "Array" [C]
  let B := EE.node "Array" [B]
  let Li := EE.node "matrixInverse"
    [EE.node "Array" [EE.node "get"
      [EE.node "matrixCholeskyDecomposition" [B], EE.str "L"]]]
  let Xa := EE.node "eigen"
    [EE.node "matrixMultiply"
      [EE.node "matrixMultiply" [Li, C], EE.node "matrixTranspose" [Li]]]
  let lambdas := EE.node "matrixTranspose"
    [EE.node "slice" [Xa, EE.num 1, EE.num 0, EE.num 1]]
  let X := EE.node "matrixTranspose" [EE.node "slice" [Xa, EE.num 1, EE.num 1]]
  let eigenvecs := EE.node "matrixMultiply" [EE.node "matrixTranspose" [Li], X]
  let _ := lambdas
  eigenvecs

/-- `chi2cdf` (src/geet.js:2281). -/
def chi2cdf (chi2 df : EE) : EE :=
  EE.node "gammainc"
    [EE.node "Image" [EE.node "divide" [chi2, EE.num 2]],
     EE.node "divide" [EE.node "Number" [df], EE.num 2]]

/--
`covarw` (src/geet.js:2311): builds the weighted centered image and weighted
covariance graph and returns the two handles as a JavaScript array
(embedded as a Lean pair, whose components `[0]`/`[1]` imad1 reads).
-/
def covarw (image weights : EE) (maxPixels : Option ℚ) : EE × EE :=
  let maxPixels := maxPixels.getD 1e9
  let geometry := EE.node "geometry" [image]
  let bandNames := EE.node "bandNames" [image]
  let N := EE.node "length" [bandNames]
  let scale := EE.node "nominalScale"
    [EE.node "projection" [EE.node "select" [image, EE.num 0]]]
  let weightsImage := EE.node "add"
    [EE.node "multiply" [image, EE.node "Image.constant" [EE.num 0]], weights]
  let means := EE.node "project"
    [EE.node "toArray"
      [EE.node "reduceRegion"
        [EE.node "addBands" [image, weightsImage],
         EE.node "splitWeights" [EE.node "repeat" [EE.node "Reducer.mean" [], N]],
         scale, EE.num maxPixels]],
     EE.num 1]
  let centered := EE.node "subtract" [EE.node "toArray" [image], means]
  let B1 := EE.node "get" [EE.node "bandNames" [centered], EE.num 0]
  let b1 := EE.node "get" [EE.node "bandNames" [weights], EE.num 0]
  let nPixels := EE.node "Number"
    [EE.node "get"
      [EE.node "reduceRegion"
        [centered, EE.node "Reducer.count" [], scale, EE.num maxPixels], B1]]
  let sumWeights := EE.node "Number"
    [EE.node "get"
      [EE.node "reduceRegion"
        [weights, EE.node "Reducer.sum" [], geometry, scale, EE.num maxPixels],
       b1]]
  let covw := EE.node "get"
    [EE.node "reduceRegion"
      [EE.node "toArray"
        [EE.node "multiply" [centered, EE.node "sqrt" [weights]]],
       EE.node "Reducer.centeredCovariance" [], geometry, scale,
       EE.num maxPixels],
     EE.str "array"]
  let covw := EE.node "divide"
    [EE.node "multiply" [EE.node "Array" [covw], nPixels], sumWeights]
  (EE.node "arrayFlatten" [centered, bandNames], covw)

/--
`imad1` (src/geet.js:2349), one step of iteratively re-weighted MAD.  The
function body builds remote graph nodes until
`var lambdas = geneiv(c1,b1)[0]`: `geneiv` returns a single ee.Array handle
(comma operator, see `Geet.geneiv`), so indexing it with `[0]`/`[1]` yields
undefined, and the next line `var rhos = lambdas.sqrt()...` throws a
TypeError.  Every later line is dead; the embedding carries them inside the
same `Except` pipeline, in source order.
-/
def imad1 (_current prev : EE) : Except String EE := do
  let image := EE.node "Image" [EE.node "get" [EE.node "Dictionary" [prev], EE.str "image"]]
  let chi2 := EE.node "Image" [EE.node "get" [EE.node "Dictionary" [prev], EE.str "chi2"]]
  let allrhos := EE.node "List" [EE.node "get" [EE.node "Dictionary" [prev], EE.str "allrhos"]]
  let region := EE.node "geometry" [image]
  let nBands := EE.node "divide" [EE.node "length" [EE.node "bandNames" [image]], EE.num 2]
  let weights := EE.node "multiply"
    [EE.node "subtract" [chi2cdf chi2 nBands, EE.num 1], EE.num (-1)]
  let centeredImage := (covarw image weights none).1
  let covarArray := (covarw image weights none).2
  let bNames := EE.node "bandNames" [centeredImage]
  let bNames1 := EE.node "slice" [bNames, EE.num 0, nBands]
  let bNames2 := EE.node "slice" [bNames, nBands]
  let centeredImage1 := EE.node "select" [centeredImage, bNames1]
  let centeredImage2 := EE.node "select" [centeredImage, bNames2]
  let s11 := EE.node "slice"
    [EE.node "slice" [covarArray, EE.num 0, EE.num 0, nBands], EE.num 1, EE.num 0, nBands]
  let s22 := EE.node "slice"
    [EE.node "slice" [covarArray, EE.num 0, nBands], EE.num 1, nBands]
  let s12 := EE.node "slice"
    [EE.node "slice" [covarArray, EE.num 0, EE.num 0, nBands], EE.num 1, nBands]
  let s21 := EE.node "slice"
    [EE.node "slice" [covarArray, EE.num 0, nBands], EE.num 1, EE.num 0, nBands]
  let c1 := EE.node "matrixMultiply"
    [EE.node "matrixMultiply" [s12, EE.node "matrixInverse" [s22]], s21]
  let b1 := s11
  let c2 := EE.node "matrixMultiply"
    [EE.node "matrixMultiply" [s21, EE.node "matrixInverse" [s11]], s12]
  let b2 := s22
  let lambdas := jsIndex (geneiv c1 b1) 0
  let A := jsIndex (geneiv c1 b1) 1
  let B := jsIndex (geneiv c2 b2) 1
  let rhos₀ ← jsMethod lambdas "sqrt" []
  let rhos := EE.node "project" [rhos₀, EE.node "List" [EE.num 1]]
  let keys := EE.node "List.sequence" [nBands, EE.num 1, EE.num (-1)]
  let A ← jsMethod A "sort" [keys]
  let B ← jsMethod B "sort" [keys]
  let rhos := EE.node "sort" [rhos, keys]
  let lastrhos := EE.node "Array" [EE.node "get" [allrhos, EE.num (-1)]]
  let done := EE.node "get"
    [EE.node "toList"
      [EE.node "lt"
        [EE.node "reduce"
          [EE.node "abs" [EE.node "subtract" [rhos, lastrhos]],
           EE.node "Reducer.max" [], EE.node "List" [EE.num 0]],
         EE.node "Number" [EE.num 0.001]]],
     EE.num 0]
  let allrhos := EE.node "cat" [allrhos, EE.node "toList" [rhos]]
  let sigma2s := EE.node "toList"
    [EE.node "multiply" [EE.node "subtract" [rhos, EE.num 1], EE.num (-2)]]
  let sigma2s := EE.node "Image.constant" [sigma2s]
  let tmp := EE.node "sqrt" [EE.node "matrixDiagonal" [s11]]
  let ones := EE.node "add" [EE.node "multiply" [tmp, EE.num 0], EE.num 1]
  let tmp := EE.node "matrixToDiag" [EE.node "divide" [ones, tmp]]
  let s := EE.node "transpose"
    [EE.node "reduce"
      [EE.node "matrixMultiply" [EE.node "matrixMultiply" [tmp, s11], A],
       EE.node "Reducer.sum" [], EE.node "List" [EE.num 0]]]
  let A := EE.node "matrixMultiply"
    [A, EE.node "matrixToDiag" [EE.node "divide" [s, EE.node "abs" [s]]]]
  let tmp := EE.node "matrixDiagonal"
    [EE.node "matrixMultiply"
      [EE.node "matrixMultiply" [EE.node "transpose" [A], s12], B]]
  let tmp := EE.node "matrixToDiag" [EE.node "divide" [tmp, EE.node "abs" [tmp]]]
  let B := EE.node "matrixMultiply" [B, tmp]
  let centeredImage1Array := EE.node "toArray" [EE.node "toArray" [centeredImage1], EE.num 1]
  let centeredImage2Array := EE.node "toArray" [EE.node "toArray" [centeredImage2], EE.num 1]
  let U := EE.node "arrayFlatten"
    [EE.node "arrayProject"
      [EE.node "matrixMultiply"
        [EE.node "Image" [EE.node "transpose" [A]], centeredImage1Array],
       EE.node "List" [EE.num 0]],
     bNames1]
  let V := EE.node "arrayFlatten"
    [EE.node "arrayProject"
      [EE.node "matrixMultiply"
        [EE.node "Image" [EE.node "transpose" [B]], centeredImage2Array],
       EE.node "List" [EE.num 0]],
     bNames2]
  let MAD := EE.node "subtract" [U, V]
  let chi2 := EE.node "clip"
    [EE.node "reduce"
      [EE.node "divide" [EE.node "pow" [MAD, EE.num 2], sigma2s],
       EE.node "Reducer.sum" []],
     region]
  pure (EE.node "Dictionary"
    [EE.str "done", done, EE.str "image", image, EE.str "allrhos", allrhos,
     EE.str "chi2", chi2, EE.str "MAD", MAD])

/--
`imad` (src/geet.js:2276): reads the done flag of the accumulator and wraps
the step in `ee.Algorithms.If(done, prev, imad1(current, prev))`.
JavaScript evaluates call arguments eagerly, so `imad1(current, prev)` runs
on every call before the If node is built.
-/
def imad (current prev : EE) : Except String EE :=
  let done := EE.node "Number" [EE.node "get" [EE.node "Dictionary" [prev], EE.str "done"]]
  (imad1 current prev).map (fun branch => EE.node "If" [done, prev, branch])

/--
`exports.simpleNDVIChangeDetection` threaded through the module state it
reads: the COLOR table only feeds the `Map.addLayer` palette, never the
returned image, and the function writes nothing.
-/
def simpleNDVIChangeDetectionRun (tab : List (String × String))
    (img1 img2 : Image) (sensor : String) (threshold : ℚ) :
    Option Image × List (String × String) :=
  let result := simpleNDVIChangeDetection img1 img2 sensor threshold
  let _palette := [tabGet tab "SHADOW", tabGet tab "URBAN", tabGet tab "PASTURE"]
  (result, tab)

/-- `exports.svm` threaded through the module state: svm never touches it. -/
def svmRun (tab : List (String × String)) (image trainingData : EE)
    (fieldName : String) (kernelType : Option String) (scale : Option ℚ) :
    EE × List (String × String) :=
  (svm image trainingData fieldName kernelType scale, tab)

/-- `exports.exportImg` threaded through the module state: it never touches it. -/
def exportImgRun (tab : List (String × String)) (image : Image)
    (outFilename : String) (scale maxPixels : Option ℚ) :
    Option Image × List (String × String) :=
  (exportImg image outFilename scale maxPixels, tab)

/-- Bands a call appended beyond the bands of the input image. -/
def newBands (img : Image) (r : Option Image) : List Band :=
  ((r.getD ⟨[], []⟩).bands).drop img.bands.length

/-- Values of the first band with the given name in a band list. -/
def findIn (bs : List Band) (name : String) : Option (List Px) :=
  (bs.find? (fun b => b.1 == name)).map Prod.snd

/-- The index names the landsatIndices switch has cases for. -/
def landsatSupportedIndices : List String :=
  ["NDVI", "NDWI", "NDBI", "NRVI", "EVI", "SAVI", "GOSAVI"]

/-- A concrete test image: one pixel, bands B1..B11 with distinct values. -/
def demoImg : Image :=
  ⟨[("B1", [Px.const 1]), ("B2", [Px.const 2]), ("B3", [Px.const 3]),
    ("B4", [Px.const 4]), ("B5", [Px.const 5]), ("B6", [Px.const 6]),
    ("B7", [Px.const 7]), ("B8", [Px.const 8]), ("B9", [Px.const 9]),
    ("B10", [Px.const 10]), ("B11", [Px.const 11])], []⟩

/-- A concrete single-band image with two pixels of different values. -/
def demoMaxImg : Image :=
  ⟨[("B1", [Px.const 0, Px.const 5])], []⟩

/-- A concrete image with a B1 band, a B10 band and the Landsat 8
reflectance metadata for band 10. -/
def demoToa : Image :=
  ⟨[("B1", [Px.const 1]), ("B10", [Px.const 2])],
   [("REFLECTANCE_MULT_BAND_10", Px.const 3),
    ("REFLECTANCE_ADD_BAND_10", Px.const 4)]⟩

/-! ### State-threaded embeddings of the full export surface

The claim about statelessness quantifies over every exported function of
src/geet.js, so every export is embedded below in state-passing style: the
module state is the COLOR table (the library's only module-level binding),
each function takes it and returns it alongside its result.  A source
statement assigning to COLOR or to an argument would translate to a
changed state; none exists.  Functions whose result the pixel-level
`Image` model captures delegate to it; the remaining ones build their
remote call chains in the `EE` graph model.  COLOR reads (display
palettes) appear as `tabGet` reads.
-/

/-- `exports.cart` (src/geet.js:67). -/
def cartRun (tab : List (String × String)) (image trainingData : EE)
    (fieldName : String) (scale : Option ℚ) :
    EE × List (String × String) :=
  let scale := scale.getD 30
  let training := EE.node "sampleRegions"
    [image, trainingData, EE.str fieldName, EE.num scale]
  let classifier := EE.node "train"
    [EE.node "Classifier.cart" [], training, EE.str fieldName]
  (EE.node "classify" [image, classifier], tab)

/-- `exports.rf` (src/geet.js:101). -/
def rfRun (tab : List (String × String)) (image trainingData : EE)
    (fieldName : String) (numOfTrees : Option ℚ) :
    EE × List (String × String) :=
  let numOfTrees := numOfTrees.getD 10
  let training := EE.node "sampleRegions"
    [image, trainingData, EE.str fieldName, EE.num 30]
  let classifier := EE.node "train"
    [EE.node "Classifier.randomForest" [EE.num numOfTrees], training,
     EE.str fieldName]
  (EE.node "classify" [image, classifier], tab)

/-- `exports.kmeans` (src/geet.js:140): an undefined roi only prints an
error; the sample call still receives it. -/
def kmeansRun (tab : List (String × String)) (image : EE) (roi : Option EE)
    (numClusters scale numPixels : Option ℚ) :
    EE × List (String × String) :=
  let numClusters := numClusters.getD 15
  let scale := scale.getD 30
  let numPixels := numPixels.getD 5000
  let training := EE.node "sample"
    (image :: roi.toList ++ [EE.num scale, EE.num numPixels])
  let clusterer := EE.node "train"
    [EE.node "Clusterer.wekaKMeans" [EE.num numClusters], training]
  (EE.node "cluster" [image, clusterer], tab)

/-- `exports.simpleNDWIChangeDetection` threaded through the module state
(the COLOR reads feed only the `Map.addLayer` palette). -/
def simpleNDWIChangeDetectionRun (tab : List (String × String))
    (img1 img2 : Image) (sensor : String) (threshold : ℚ) :
    Option Image × List (String × String) :=
  let result := simpleNDWIChangeDetection img1 img2 sensor threshold
  let _palette := [tabGet tab "SHADOW", tabGet tab "URBAN", tabGet tab "PASTURE"]
  (result, tab)

/-- `exports.simpleNDBIChangeDetection` threaded through the module state. -/
def simpleNDBIChangeDetectionRun (tab : List (String × String))
    (img1 img2 : Image) (sensor : String) (threshold : ℚ) :
    Option Image × List (String × String) :=
  let result := simpleNDBIChangeDetection img1 img2 sensor threshold
  let _palette := [tabGet tab "SHADOW", tabGet tab "URBAN", tabGet tab "PASTURE"]
  (result, tab)

/-- `exports.texture` (src/geet.js:304). -/
def textureRun (tab : List (String × String)) (image : EE) (radius : ℚ) :
    EE × List (String × String) :=
  (EE.node "reduceNeighborhood"
    [image, EE.node "Reducer.stdDev" [], EE.node "Kernel.circle" [EE.num radius]],
   tab)

/-- `exports.majority` (src/geet.js:325). -/
def majorityRun (tab : List (String × String)) (image : EE) (radius : ℚ) :
    EE × List (String × String) :=
  (EE.node "reduceNeighborhood"
    [image, EE.node "Reducer.mode" [], EE.node "Kernel.circle" [EE.num radius]],
   tab)

/-- `exports.plotRGB` (src/geet.js:387): display only, no return value. -/
def plotRGBRun (tab : List (String × String)) (image : Image)
    (title : Option String) : Option Image × List (String × String) :=
  let _title := title.getD "image_RGB"
  let _image := image
  (none, tab)

/-- `exports.plotNDVI` (src/geet.js:413): display only, no return value. -/
def plotNDVIRun (tab : List (String × String)) (image : Image)
    (title : Option String) : Option Image × List (String × String) :=
  let _image := image
  let _title := title
  (none, tab)

/-- `exports.plotNDWI` (src/geet.js:429): display only, no return value. -/
def plotNDWIRun (tab : List (String × String)) (image : Image)
    (title : Option String) : Option Image × List (String × String) :=
  let _image := image
  let _title := title
  (none, tab)

/-- `exports.landsatIndices` threaded through the module state. -/
def landsatIndicesRun (tab : List (String × String)) (image : Image)
    (sensor : String) (index : Option String) :
    Option Image × List (String × String) :=
  (landsatIndices image sensor index, tab)

/-- `exports.sentinel2Indices` threaded through the module state. -/
def sentinel2IndicesRun (tab : List (String × String)) (image : Image)
    (index : Option String) : Option Image × List (String × String) :=
  (sentinel2Indices image index, tab)

/--
`exports.loadImg` (src/geet.js:1020): default parameters, the year-dependent
collection-id switch (an unrecognized collection or year only prints an
error and leaves the variable unchanged), and the two collection pipelines.
The cloud-free branch tests the already-reassigned collection variable
against TOA.  The function returns the image handle on every path.
-/
def loadImgRun (tab : List (String × String)) (collection : Option String)
    (year : Option ℚ) (roi : Option EE) (cloudFree : Option Bool) :
    EE × List (String × String) :=
  let collection := collection.getD "TOA"
  let roi := roi.getD (EE.node "Geometry.Point" [EE.num (-43.25), EE.num (-22.90)])
  let year := year.getD 2015
  let cloudFree := cloudFree.getD true
  let collection :=
    if year ≥ 2013 then
      if collection = "RAW" then "LANDSAT/LC8_L1T"
      else if collection = "TOA" then "LANDSAT/LC8_L1T_TOA_FMASK"
      else if collection = "SR" then "LANDSAT/LC8_SR"
      else collection
    else if year < 2013 ∧ year ≥ 1985 then
      if collection = "RAW" then "LANDSAT/LT5_L1T"
      else if collection = "TOA" then "LANDSAT/LT5_L1T_TOA_FMASK"
      else if collection = "SR" then "LANDSAT/LT5_SR"
      else collection
    else collection
  let start := "-01-01"
  let finish := "-12-31"
  let ic := EE.node "ImageCollection" [EE.str collection]
  let result_image :=
    if cloudFree = true ∧ collection = "TOA" then
      -- var noclouds = function (image) return image.updateMask(image.select(fmask).neq(4))
      let noclouds := EE.node "fun"
        [EE.node "updateMask"
          [EE.node "arg" [],
           EE.node "neq" [EE.node "select" [EE.node "arg" [], EE.str "fmask"],
             EE.num 4]]]
      EE.node "median"
        [EE.node "map"
          [EE.node "ImageCollection"
            [EE.node "sort"
              [EE.node "filterDate"
                [EE.node "filterBounds" [ic, roi],
                 EE.str (toString year ++ start), EE.str (toString year ++ finish)],
               EE.str "CLOUD_COVER"]],
           noclouds]]
    else
      EE.node "Image"
        [EE.node "first"
          [EE.node "sort"
            [EE.node "filterDate"
              [EE.node "filterBounds" [ic, roi],
               EE.str (toString year ++ start), EE.str (toString year ++ finish)],
             EE.str "CLOUD_COVER"]]]
  (result_image, tab)

/-- `exports.toaRadiance` threaded through the module state. -/
def toaRadianceRun (tab : List (String × String)) (image : Image) (band : ℕ) :
    Image × List (String × String) :=
  (toaRadiance image band, tab)

/-- `exports.toaReflectance` threaded through the module state. -/
def toaReflectanceRun (tab : List (String × String)) (image : Image) (band : ℕ) :
    Image × List (String × String) :=
  (toaReflectance image band, tab)

/-- `solarAngleElevation` (src/geet.js:1167): divide by sin(SUN_ELEVATION). -/
def solarAngleElevation (original_img raw_reflectance : Image) : Image :=
  let sun_elevation := imgGet original_img "SUN_ELEVATION"
  let sin_sun_elevation := Px.sinv sun_elevation
  rename1 (mapBands (fun v => Px.div v sin_sun_elevation) raw_reflectance)
    "TOA_Reflectance_SE"

/-- `solarAngleZenith` (src/geet.js:1175): divide by cos(90 - SUN_ELEVATION). -/
def solarAngleZenith (original_img raw_reflectance : Image) : Image :=
  let sun_elevation := imgGet original_img "SUN_ELEVATION"
  let solar_zenith := Px.sub (Px.const 90) sun_elevation
  let cos_sun_elevation := Px.cosv solar_zenith
  rename1 (mapBands (fun v => Px.div v cos_sun_elevation) raw_reflectance)
    "TOA_Reflectance_SZ"

/--
`exports.toaReflectanceL8` (src/geet.js:1212): an unrecognized solar-angle
mode falls back to SZ with a warning; both modes compute the reflectance
band and apply the corresponding solar-angle correction.
-/
def toaReflectanceL8Run (tab : List (String × String)) (image : Image)
    (band : ℕ) (solarAngle : Option String) :
    Option Image × List (String × String) :=
  let solarAngle := match solarAngle with
    | some sa => if sa ≠ "SZ" ∧ sa ≠ "SE" then "SZ" else sa
    | none => "SZ"
  let result : Option Image :=
    if solarAngle = "SE" then
      let band_to_toa := selectBand image ("B" ++ toString band)
      let reflectance_multi_band := imgGet image ("REFLECTANCE_MULT_BAND_" ++ toString band)
      let reflectance_add_band := imgGet image ("REFLECTANCE_ADD_BAND_" ++ toString band)
      let toa := rename1
        (mapBands (fun v => Px.add (Px.mul reflectance_multi_band v) reflectance_add_band)
          band_to_toa) ("B" ++ toString band ++ "_TOA_Reflectance_SE")
      some (solarAngleElevation image toa)
    else if solarAngle = "SZ" then
      let band_to_toa := selectBand image ("B" ++ toString band)
      let reflectance_multi_band := imgGet image ("REFLECTANCE_MULT_BAND_" ++ toString band)
      let reflectance_add_band := imgGet image ("REFLECTANCE_ADD_BAND_" ++ toString band)
      let toa := rename1
        (mapBands (fun v => Px.add (Px.mul reflectance_multi_band v) reflectance_add_band)
          band_to_toa) ("B" ++ toString band ++ "_TOA_Reflectance_SZ")
      some (solarAngleZenith image toa)
    else none
  (result, tab)

/-- `exports.brightnessTempL5_K` (src/geet.js:1273): fixed Landsat 5
constants K1 = 607.76 and K2 = 1260.56 over the TOA_Radiance band. -/
def brightnessTempL5_KRun (tab : List (String × String)) (image : Image) :
    Image × List (String × String) :=
  let brightness_temp_semlog := mapBands
    (fun B6 => Px.add (Px.div (Px.const 607.76) B6) (Px.const 1))
    (selectBand image "TOA_Radiance")
  let brightness_temp_log := mapBands Px.log brightness_temp_semlog
  let brightness_temp := rename1
    (mapBands (fun l => Px.div (Px.const 1260.56) l) brightness_temp_log)
    "Brightness_Temperature"
  (addBands image brightness_temp.bands, tab)

/-- `exports.brightnessTempL5_C` (src/geet.js:1315): the Kelvin computation
with 273.5 subtracted before appending. -/
def brightnessTempL5_CRun (tab : List (String × String)) (image : Image) :
    Image × List (String × String) :=
  let brightness_temp_semlog := mapBands
    (fun B6 => Px.add (Px.div (Px.const 607.76) B6) (Px.const 1))
    (selectBand image "TOA_Radiance")
  let brightness_temp_log := mapBands Px.log brightness_temp_semlog
  let brightness_temp := rename1
    (mapBands (fun l => Px.div (Px.const 1260.56) l) brightness_temp_log)
    "Brightness_Temperature"
  let brightness_temp_celsius := mapBands
    (fun v => Px.sub v (Px.const 273.5)) brightness_temp
  (addBands image brightness_temp_celsius.bands, tab)

/-- `exports.brightnessTempL7_K` (src/geet.js:1357): Landsat 7 constants
K1 = 666.09 and K2 = 1282.71. -/
def brightnessTempL7_KRun (tab : List (String × String)) (image : Image) :
    Image × List (String × String) :=
  let brightness_temp_semlog := mapBands
    (fun B6 => Px.add (Px.div (Px.const 666.09) B6) (Px.const 1))
    (selectBand image "TOA_Radiance")
  let brightness_temp_log := mapBands Px.log brightness_temp_semlog
  let brightness_temp := rename1
    (mapBands (fun l => Px.div (Px.const 1282.71) l) brightness_temp_log)
    "Brightness_Temperature"
  (addBands image brightness_temp.bands, tab)

/-- `exports.brightnessTempL7_C` (src/geet.js:1399). -/
def brightnessTempL7_CRun (tab : List (String × String)) (image : Image) :
    Image × List (String × String) :=
  let brightness_temp_semlog := mapBands
    (fun B6 => Px.add (Px.div (Px.const 666.09) B6) (Px.const 1))
    (selectBand image "TOA_Radiance")
  let brightness_temp_log := mapBands Px.log brightness_temp_semlog
  let brightness_temp := rename1
    (mapBands (fun l => Px.div (Px.const 1282.71) l) brightness_temp_log)
    "Brightness_Temperature"
  let brightness_temp_celsius := mapBands
    (fun v => Px.sub v (Px.const 273.5)) brightness_temp
  (addBands image brightness_temp_celsius.bands, tab)

/-- `exports.brightnessTempL8_K` threaded through the module state. -/
def brightnessTempL8_KRun (tab : List (String × String)) (image : Image)
    (single : Option Bool) : Image × List (String × String) :=
  (brightnessTempL8_K image single, tab)

/-- `exports.brightnessTempL8_C` threaded through the module state. -/
def brightnessTempL8_CRun (tab : List (String × String)) (image : Image)
    (single : Option Bool) : Image × List (String × String) :=
  (brightnessTempL8_C image single, tab)

/-- `exports.resample` (src/geet.js:1586): bilinear resample reprojected to
the crs of band B2. -/
def resampleRun (tab : List (String × String)) (image : EE) (scaleNumber : ℚ) :
    EE × List (String × String) :=
  let band := EE.node "select" [image, EE.str "B2"]
  (EE.node "reproject"
    [EE.node "resample" [image, EE.str "bilinear"],
     EE.node "crs" [EE.node "projection" [band]], EE.num scaleNumber],
   tab)

/-- `exports.resampleBand` (src/geet.js:1611). -/
def resampleBandRun (tab : List (String × String)) (band : EE) (scaleNumber : ℚ) :
    EE × List (String × String) :=
  (EE.node "reproject"
    [EE.node "resample" [band, EE.str "bilinear"],
     EE.node "crs" [EE.node "projection" [band]], EE.num scaleNumber],
   tab)

/-- `exports.loadS2ById` (src/geet.js:1631). -/
def loadS2ByIdRun (tab : List (String × String)) (id : String) :
    EE × List (String × String) :=
  (EE.node "filterMetadata"
    [EE.node "ImageCollection" [EE.str "COPERNICUS/S2"],
     EE.str "PRODUCT_ID", EE.str "equals", EE.str id],
   tab)

/-- Build a path/row-filtered collection (the body the three loaders repeat). -/
def pathRowCollection (collName : String) (path row startYear endYear : EE) : EE :=
  EE.node "filter"
    [EE.node "filter"
      [EE.node "filterDate"
        [EE.node "ImageCollection" [EE.str collName],
         EE.node "Date" [startYear], EE.node "Date" [endYear]],
       EE.node "Filter.eq" [EE.str "WRS_PATH", path]],
     EE.node "Filter.eq" [EE.str "WRS_ROW", row]]

/-- `exports.loadL5ByPathRow` (src/geet.js:1639): lowercased collection
switch; the default case prints and returns no value. -/
def loadL5ByPathRowRun (tab : List (String × String)) (collection : Option String)
    (path row startYear endYear : EE) :
    Option EE × List (String × String) :=
  let collection := match collection with
    | some c => jsToLowerCase c
    | none => "raw"
  (match collection with
   | "raw" => some (pathRowCollection "LANDSAT/LT5_L1T" path row startYear endYear)
   | "toa" => some (pathRowCollection "LANDSAT/LT5_L1T_TOA_FMASK" path row startYear endYear)
   | "sr" => some (pathRowCollection "LANDSAT/LT05/C01/T1_SR" path row startYear endYear)
   | _ => none, tab)

/-- `exports.loadL7ByPathRow` (src/geet.js:1668): the source reuses the
Landsat 5 collection ids. -/
def loadL7ByPathRowRun (tab : List (String × String)) (collection : Option String)
    (path row startYear endYear : EE) :
    Option EE × List (String × String) :=
  let collection := match collection with
    | some c => jsToLowerCase c
    | none => "raw"
  (match collection with
   | "raw" => some (pathRowCollection "LANDSAT/LT5_L1T" path row startYear endYear)
   | "toa" => some (pathRowCollection "LANDSAT/LT5_L1T_TOA_FMASK" path row startYear endYear)
   | "sr" => some (pathRowCollection "LANDSAT/LT05/C01/T1_SR" path row startYear endYear)
   | _ => none, tab)

/-- `exports.loadL8ByPathRow` (src/geet.js:1697): also reuses the Landsat 5
collection ids. -/
def loadL8ByPathRowRun (tab : List (String × String)) (collection : Option String)
    (path row startYear endYear : EE) :
    Option EE × List (String × String) :=
  let collection := match collection with
    | some c => jsToLowerCase c
    | none => "raw"
  (match collection with
   | "raw" => some (pathRowCollection "LANDSAT/LT5_L1T" path row startYear endYear)
   | "toa" => some (pathRowCollection "LANDSAT/LT5_L1T_TOA_FMASK" path row startYear endYear)
   | "sr" => some (pathRowCollection "LANDSAT/LT05/C01/T1_SR" path row startYear endYear)
   | _ => none, tab)

/-- `exports.s2Mosaic` (src/geet.js:1749): with no roi the sorted dated
collection is mapped over a time-band-adding function and mosaicked;
with an roi it is bounds-filtered and mosaicked; returned on every path. -/
def s2MosaicRun (tab : List (String × String)) (startDate endDate : String)
    (roi : Option EE) (showMosaic : Option Bool) :
    EE × List (String × String) :=
  let s2 := EE.node "ImageCollection" [EE.str "COPERNICUS/S2"]
  let _showMosaic := showMosaic.getD true
  let composite := match roi with
    | none =>
      let addTime := EE.node "fun"
        [EE.node "addBands"
          [EE.node "arg" [],
           EE.node "metadata" [EE.node "arg" [], EE.str "system:time_start"]]]
      EE.node "mosaic"
        [EE.node "map"
          [EE.node "sort"
            [EE.node "filterDate" [s2, EE.node "Date" [EE.str startDate],
               EE.node "Date" [EE.str endDate]],
             EE.str "CLOUDY_PIXEL_PERCENTAGE", EE.bool false],
           addTime]]
    | some r =>
      EE.node "mosaic"
        [EE.node "filterBounds"
          [EE.node "sort"
            [EE.node "filterDate" [s2, EE.node "Date" [EE.str startDate],
               EE.node "Date" [EE.str endDate]],
             EE.str "CLOUDY_PIXEL_PERCENTAGE", EE.bool false],
           r]]
  (composite, tab)

/-- The shared body of the three Landsat mosaic builders
(src/geet.js:1802,1854,1906): only the collection id differs. -/
def landsatMosaic (collName : String) (startDate endDate : String)
    (roi : Option EE) : EE :=
  let lc := EE.node "ImageCollection" [EE.str collName]
  match roi with
  | none =>
    EE.node "mosaic"
      [EE.node "sort"
        [EE.node "filterDate" [lc, EE.node "Date" [EE.str startDate],
           EE.node "Date" [EE.str endDate]],
         EE.str "CLOUD_COVER", EE.bool false]]
  | some r =>
    EE.node "mosaic"
      [EE.node "sort"
        [EE.node "filterDate"
          [EE.node "filterBounds" [lc, r],
           EE.node "Date" [EE.str startDate], EE.node "Date" [EE.str endDate]],
         EE.str "CLOUD_COVER", EE.bool false]]

/-- `exports.landsat5Mosaic` (src/geet.js:1802). -/
def landsat5MosaicRun (tab : List (String × String)) (startDate endDate : String)
    (roi : Option EE) (showMosaic : Option Bool) :
    EE × List (String × String) :=
  let _showMosaic := showMosaic.getD true
  (landsatMosaic "LANDSAT/LT5_L1T_TOA" startDate endDate roi, tab)

/-- `exports.landsat7Mosaic` (src/geet.js:1854). -/
def landsat7MosaicRun (tab : List (String × String)) (startDate endDate : String)
    (roi : Option EE) (showMosaic : Option Bool) :
    EE × List (String × String) :=
  let _showMosaic := showMosaic.getD true
  (landsatMosaic "LANDSAT/LE7_L1T_TOA" startDate endDate roi, tab)

/-- `exports.landsat8Mosaic` (src/geet.js:1906). -/
def landsat8MosaicRun (tab : List (String × String)) (startDate endDate : String)
    (roi : Option EE) (showMosaic : Option Bool) :
    EE × List (String × String) :=
  let _showMosaic := showMosaic.getD true
  (landsatMosaic "LANDSAT/LC8_L1T_TOA" startDate endDate roi, tab)

/-- `exports.modisNdviMosaic` (src/geet.js:1958): maps an NDVI-rescaling
function over the dated MODIS collection and mosaics the rescaled band;
the roi parameter is never used in the body. -/
def modisNdviMosaicRun (tab : List (String × String)) (startDate endDate : String)
    (roi : Option EE) (showMosaic : Option Bool) :
    EE × List (String × String) :=
  let _showMosaic := showMosaic.getD true
  let _roi := roi
  let modis := EE.node "filterDate"
    [EE.node "ImageCollection" [EE.str "MODIS/MOD13Q1"],
     EE.node "Date" [EE.str startDate], EE.node "Date" [EE.str endDate]]
  let rescale_ndvi := EE.node "fun"
    [EE.node "addBands"
      [EE.node "arg" [],
       EE.node "rename"
        [EE.node "multiply"
          [EE.node "select" [EE.node "arg" [], EE.str "NDVI"], EE.num 0.0001],
         EE.str "NDVI_rescaled"]]]
  let goodCollection := EE.node "map" [modis, rescale_ndvi]
  (EE.node "mosaic" [EE.node "select" [goodCollection, EE.str "NDVI_rescaled"]],
   tab)

/-- `exports.max` threaded through the module state. -/
def maxRun (tab : List (String × String)) (image : Image) :
    Image × List (String × String) :=
  (max image, tab)

/-- `exports.min` threaded through the module state. -/
def minRun (tab : List (String × String)) (image : Image) :
    Image × List (String × String) :=
  (min image, tab)

/-- `exports.ndviL5` (src/geet.js:2029). -/
def ndviL5Run (tab : List (String × String)) (image : Image) :
    Image × List (String × String) :=
  (addBands image (ndBand image "B4" "B3" "NDVI"), tab)

/-- `exports.ndviL7` (src/geet.js:2047). -/
def ndviL7Run (tab : List (String × String)) (image : Image) :
    Image × List (String × String) :=
  (addBands image (ndBand image "B4" "B3" "NDVI"), tab)

/-- `exports.ndviL8` (src/geet.js:2065). -/
def ndviL8Run (tab : List (String × String)) (image : Image) :
    Image × List (String × String) :=
  (addBands image (ndBand image "B5" "B4" "NDVI"), tab)

/-- `exports.ndviS2` (src/geet.js:2083). -/
def ndviS2Run (tab : List (String × String)) (image : Image) :
    Image × List (String × String) :=
  (addBands image (ndBand image "B8" "B4" "NDVI"), tab)

/-- `exports.propVeg` (src/geet.js:2101): squared rescaled NDVI with the
fixed constants ndvi_min = 0.05 and ndvi_max = 0.7. -/
def propVegRun (tab : List (String × String)) (image : Image) :
    Image × List (String × String) :=
  let ndvi := selectBand image "NDVI"
  let propVeg := rename1
    (mapBands (fun v =>
        Px.mul
          (Px.div (Px.sub v (Px.const 0.05))
            (Px.sub (Px.const 0.7) (Px.const 0.05)))
          (Px.div (Px.sub v (Px.const 0.05))
            (Px.sub (Px.const 0.7) (Px.const 0.05)))) ndvi)
    "propVeg"
  (addBands image propVeg.bands, tab)

/-- `exports.landSurfaceEmissivity` (src/geet.js:2127):
(0.004 * propVeg) + 0.986. -/
def landSurfaceEmissivityRun (tab : List (String × String)) (image : Image) :
    Image × List (String × String) :=
  let lse := rename1
    (mapBands (fun pv => Px.add (Px.mul (Px.const 0.004) pv) (Px.const 0.986))
      (selectBand image "propVeg"))
    "LSE"
  (addBands image lse.bands, tab)

/-- `exports.landSurfaceTemperature` (src/geet.js:2149):
BT / 1 + B10 * (BT / 14380) * log(LSE), appended as LST. -/
def landSurfaceTemperatureRun (tab : List (String × String)) (image : Image) :
    Image × List (String × String) :=
  let lse_log := mapBands Px.log (selectBand image "LSE")
  let lst : Band := ("LST",
    expr3 (fun BT B10 LL =>
        Px.add (Px.div BT (Px.const 1))
          (Px.mul (Px.mul B10 (Px.div BT (Px.const 14380))) LL))
      (bandVals image "Brightness_Temperature") (bandVals image "B10")
      (bandVals lse_log "LSE"))
  (addBands image [lst], tab)

/-- `exports.exportImg` is already embedded; `exports.cloudMask`
(src/geet.js:2208): mask out fmask = 4 pixels. -/
def cloudMaskRun (tab : List (String × String)) (image : EE) :
    EE × List (String × String) :=
  (EE.node "updateMask"
    [image, EE.node "neq" [EE.node "select" [image, EE.str "fmask"], EE.num 4]],
   tab)

/-- `exports.pca` (src/geet.js:2234): centers the image, takes the
centered covariance and its eigendecomposition, and returns the JavaScript
array [pcs, lambdas] (a Lean pair). -/
def pcaRun (tab : List (String × String)) (image : EE) (nbands : Option ℕ)
    (scale maxPixels : Option ℚ) : (EE × EE) × List (String × String) :=
  let scale := scale.getD 30
  let nbands := nbands.getD 12
  let maxPixels := maxPixels.getD 1e9
  let pcNames := (List.range nbands).map (fun i => "pc" ++ toString (i + 1))
  let bandNames := EE.node "bandNames" [image]
  let meanDict := EE.node "reduceRegion"
    [image, EE.node "Reducer.mean" [], EE.num scale, EE.num maxPixels]
  let means := EE.node "Image.constant" [EE.node "values" [meanDict, bandNames]]
  let centered := EE.node "subtract" [image, means]
  let centered := EE.node "toArray" [centered]
  let covar := EE.node "reduceRegion"
    [centered, EE.node "Reducer.centeredCovariance" [], EE.num scale,
     EE.num maxPixels]
  let covarArray := EE.node "Array" [EE.node "get" [covar, EE.str "array"]]
  let eigens := EE.node "eigen" [covarArray]
  let lambdas := EE.node "slice" [eigens, EE.num 1, EE.num 0, EE.num 1]
  let eivs := EE.node "slice" [eigens, EE.num 1, EE.num 1]
  let centered := EE.node "toArray" [centered, EE.num 1]
  let pcs := EE.node "arrayFlatten"
    [EE.node "arrayProject"
      [EE.node "matrixMultiply" [EE.node "Image" [eivs], centered],
       EE.node "List" [EE.num 0]],
     EE.node "List" (pcNames.map EE.str)]
  ((pcs, lambdas), tab)

/-! ## Helper lemmas -/

theorem toNat_ofNat_small (n : ℕ) (h : n < 55296) : (Char.ofNat n).toNat = n := by
  have hv : n.isValidChar := Or.inl h
  rw [Char.ofNat, dif_pos hv]
  simp [Char.ofNatAux, Char.toNat, UInt32.ofNat', UInt32.toNat, BitVec.toNat_ofNatLt]

theorem jsLowerChar_idem (c : Char) : jsLowerChar (jsLowerChar c) = jsLowerChar c := by
  unfold jsLowerChar
  by_cases h : 65 ≤ c.toNat ∧ c.toNat ≤ 90
  · rw [if_pos h]
    have ht : (Char.ofNat (c.toNat + 32)).toNat = c.toNat + 32 :=
      toNat_ofNat_small _ (by omega)
    rw [if_neg]
    rw [ht]
    omega
  · rw [if_neg h, if_neg h]

theorem jsToLowerCase_idem (s : String) :
    jsToLowerCase (jsToLowerCase s) = jsToLowerCase s := by
  unfold jsToLowerCase
  simp only [List.map_map]
  refine congrArg String.mk ?_
  induction s.data with
  | nil => rfl
  | cons c l ih => simp [Function.comp, jsLowerChar_idem, ih]

theorem newBands_addBands (img : Image) (X : List Band) :
    newBands img (some (addBands img X)) = X := by
  unfold newBands addBands
  exact List.drop_left _ _

theorem s2Index_unsupported (img : Image) (u : String)
    (h : u ∉ s2SupportedIndices) : s2Index img u = none := by
  unfold s2Index
  split <;> first
    | rfl
    | exact absurd (by decide) h

theorem colorRun_not_valid (tab : List (String × String)) (s : String)
    (h : jsToLowerCase s ∉ ["water", "forest", "pasture", "urban", "shadow", "null"]) :
    colorRun tab s =
      ("Error: Valid options are water, forest, pasture, urban, shadow or null! Remember to pass the argument as a string.", tab) := by
  unfold colorRun
  split <;> first
    | rfl
    | (rename_i heq; rw [heq] at h; exact absurd (by decide) h)

/-! ## Claim theorems -/

set_option maxRecDepth 4000 in
/--
C10: `exports.color` is case-insensitive and total: for every string s,
color(s) = color(s.toLowerCase()); for the six color names (up to case) it
returns the 6-digit hex entry of the COLOR table, and for every other
string it returns the fixed error-message string beginning with Error:, so
the error case is signalled only through the returned string value.
-/
theorem color_case_insensitive_total :
    (∀ s : String, color s = color (jsToLowerCase s)) ∧
    (∀ s : String, jsToLowerCase s = "water" → color s = "0066ff") ∧
    (∀ s : String, jsToLowerCase s = "forest" → color s = "009933") ∧
    (∀ s : String, jsToLowerCase s = "pasture" → color s = "99cc00") ∧
    (∀ s : String, jsToLowerCase s = "urban" → color s = "ff0000") ∧
    (∀ s : String, jsToLowerCase s = "shadow" → color s = "000000") ∧
    (∀ s : String, jsToLowerCase s = "null" → color s = "808080") ∧
    (∀ s : String,
      jsToLowerCase s ∉ ["water", "forest", "pasture", "urban", "shadow", "null"] →
      color s = "Error: Valid options are water, forest, pasture, urban, shadow or null! Remember to pass the argument as a string.") ∧
    ("Error: Valid options are water, forest, pasture, urban, shadow or null! Remember to pass the argument as a string.".data.take 6 = "Error:".data) := by
  refine ⟨?_, ?_, ?_, ?_, ?_, ?_, ?_, ?_, by decide⟩
  · intro s
    unfold color colorRun
    rw [jsToLowerCase_idem]
  · intro s h
    unfold color colorRun
    rw [h]
    rfl
  · intro s h
    unfold color colorRun
    rw [h]
    rfl
  · intro s h
    unfold color colorRun
    rw [h]
    rfl
  · intro s h
    unfold color colorRun
    rw [h]
    rfl
  · intro s h
    unfold color colorRun
    rw [h]
    rfl
  · intro s h
    unfold color colorRun
    rw [h]
    rfl
  · intro s h
    unfold color
    rw [colorRun_not_valid COLOR s h]

/-- C10 witness: the theorem applied at concrete inputs. -/
theorem color_case_insensitive_total_witness :
    color "WaTeR" = "0066ff" ∧ color "blue" = "Error: Valid options are water, forest, pasture, urban, shadow or null! Remember to pass the argument as a string." :=
  ⟨color_case_insensitive_total.2.1 "WaTeR" (by decide),
   color_case_insensitive_total.2.2.2.2.2.2.2.1 "blue" (by decide)⟩

/--
C9: `exports.sentinel2Indices` matches its index argument
case-insensitively; every index string whose lowercase form is not among
the 23 supported names falls through the switch and yields no image handle;
omitting the index argument produces the all-indices image (which appends
22 index bands).
-/
theorem sentinel2Indices_case_insensitive :
    (∀ (img : Image) (s : String),
      sentinel2Indices img (some s) = sentinel2Indices img (some (jsToLowerCase s))) ∧
    (∀ (img : Image) (s : String), jsToLowerCase s ∉ s2SupportedIndices →
      sentinel2Indices img (some s) = none) ∧
    (∀ img : Image, sentinel2Indices img none = some (s2AllIndices img) ∧
      (s2AllIndices img).bands.length = img.bands.length + 22) := by
  refine ⟨?_, ?_, ?_⟩
  · intro img s
    show s2Index img (jsToLowerCase s) = s2Index img (jsToLowerCase (jsToLowerCase s))
    rw [jsToLowerCase_idem]
  · intro img s h
    exact s2Index_unsupported img (jsToLowerCase s) h
  · intro img
    refine ⟨rfl, ?_⟩
    simp [s2AllIndices, addBands, ndBand, rename1, normalizedDifference]

/-- C9 witness: the theorem applied at concrete inputs. -/
theorem sentinel2Indices_case_insensitive_witness :
    sentinel2Indices demoImg (some "NDVI") = sentinel2Indices demoImg (some "ndvi") ∧
    sentinel2Indices demoImg (some "xyz") = none := by
  constructor
  · have h := sentinel2Indices_case_insensitive.1 demoImg "NDVI"
    have e : jsToLowerCase "NDVI" = "ndvi" := by decide
    rw [e] at h
    exact h
  · exact sentinel2Indices_case_insensitive.2.1 demoImg "xyz" (by decide)

/--
C4 counterexample: on a concrete Landsat 8 image,
`landsatIndices(image, L8, NDWI)` computes the NDWI band from B4/B6 while
the all-indices call `landsatIndices(image, L8)` computes it from B3/B6: the
appended NDWI bands differ, so the two entry points do not define the same
index expression for NDWI.
-/
theorem landsatIndices_ndwi_branch_mismatch :
    findIn (newBands demoImg (landsatIndices demoImg "L8" (some "NDWI"))) "NDWI" ≠
    findIn (newBands demoImg (landsatIndices demoImg "L8" none)) "NDWI" := by
  decide

/--
C4 amended: for sensors L5, L7 and L8, the single-index and all-indices
entry points of `exports.landsatIndices` define the same expression for the
NDVI and NDBI bands; for NDWI they do not (the single-index arm reads
B3/B5 on L5 and L7 and B4/B6 on L8, the all-indices branch reads B2/B5 and
B3/B6 respectively).
-/
theorem landsatIndices_single_vs_all :
    ∀ img : Image,
    (findIn (newBands img (landsatIndices img "L5" (some "NDVI"))) "NDVI" =
       findIn (newBands img (landsatIndices img "L5" none)) "NDVI") ∧
    (findIn (newBands img (landsatIndices img "L7" (some "NDVI"))) "NDVI" =
       findIn (newBands img (landsatIndices img "L7" none)) "NDVI") ∧
    (findIn (newBands img (landsatIndices img "L8" (some "NDVI"))) "NDVI" =
       findIn (newBands img (landsatIndices img "L8" none)) "NDVI") ∧
    (findIn (newBands img (landsatIndices img "L5" (some "NDBI"))) "NDBI" =
       findIn (newBands img (landsatIndices img "L5" none)) "NDBI") ∧
    (findIn (newBands img (landsatIndices img "L7" (some "NDBI"))) "NDBI" =
       findIn (newBands img (landsatIndices img "L7" none)) "NDBI") ∧
    (findIn (newBands img (landsatIndices img "L8" (some "NDBI"))) "NDBI" =
       findIn (newBands img (landsatIndices img "L8" none)) "NDBI") ∧
    (findIn (newBands img (landsatIndices img "L8" (some "NDWI"))) "NDWI" =
       findIn (ndBand img "B4" "B6" "NDWI") "NDWI") ∧
    (findIn (newBands img (landsatIndices img "L8" none)) "NDWI" =
       findIn (ndBand img "B3" "B6" "NDWI") "NDWI") ∧
    (findIn (newBands img (landsatIndices img "L5" (some "NDWI"))) "NDWI" =
       findIn (ndBand img "B3" "B5" "NDWI") "NDWI") ∧
    (findIn (newBands img (landsatIndices img "L5" none)) "NDWI" =
       findIn (ndBand img "B2" "B5" "NDWI") "NDWI") := by
  intro img
  refine ⟨?_, ?_, ?_, ?_, ?_, ?_, ?_, ?_, ?_, ?_⟩ <;>
    simp [landsatIndices, landsatSwitch, landsatAll, newBands, addBands,
      ndBand, rename1, normalizedDifference, findIn, List.drop_left]

theorem landsatIndices_unknown_index (img : Image) (sensor : String)
    (idx : String) (h : idx ∉ landsatSupportedIndices) :
    landsatIndices img sensor (some idx) = none := by
  show landsatSwitch img sensor idx = none
  unfold landsatSwitch
  split <;> first
    | rfl
    | exact absurd (by decide) h

/--
C1 counterexample: the returned handle is absent on concrete inputs:
`simpleNDVIChangeDetection` with an unrecognized sensor string executes
`return;`, and `plotClass` and `exportImg` have no return value on any
input, so none of them returns an ee object handle there.
-/
theorem exported_functions_return_undefined :
    simpleNDVIChangeDetection demoImg demoImg "LX" 0 = none ∧
    plotClass demoImg 3 (some "t") = none ∧
    exportImg demoImg "f" none none = none :=
  ⟨rfl, rfl, rfl⟩

/--
C1 amended: the change-detection functions return an image handle exactly
for the sensors L5, L7, L8 and S2 and return undefined otherwise;
landsatIndices returns a handle for recognized sensor and index
combinations but undefined for an unrecognized sensor, an unrecognized
index name, or an unsupported combination such as NRVI on S2; plotClass
and exportImg only produce display/export side effects and return
undefined on every input.
-/
theorem exported_functions_partial_domain :
    ∀ (img1 img2 img : Image) (t : ℚ) (n : ℕ) (ttl : Option String)
      (fn : String) (sc mp : Option ℚ),
    (∀ s : String, s = "L5" ∨ s = "L7" ∨ s = "L8" ∨ s = "S2" →
      (simpleNDVIChangeDetection img1 img2 s t).isSome = true ∧
      (simpleNDWIChangeDetection img1 img2 s t).isSome = true ∧
      (simpleNDBIChangeDetection img1 img2 s t).isSome = true) ∧
    (∀ s : String, ¬(s = "L5" ∨ s = "L7" ∨ s = "L8" ∨ s = "S2") →
      simpleNDVIChangeDetection img1 img2 s t = none ∧
      simpleNDWIChangeDetection img1 img2 s t = none ∧
      simpleNDBIChangeDetection img1 img2 s t = none) ∧
    (landsatIndices img "L8" (some "NDVI")).isSome = true ∧
    landsatIndices img "S2" (some "NRVI") = none ∧
    (∀ idx : String, idx ∉ landsatSupportedIndices →
      landsatIndices img "L8" (some idx) = none) ∧
    (∀ s : String, ¬(s = "L5" ∨ s = "L7" ∨ s = "L8" ∨ s = "S2") →
      landsatIndices img s none = none) ∧
    plotClass img n ttl = none ∧
    exportImg img fn sc mp = none := by
  intro img1 img2 img t n ttl fn sc mp
  refine ⟨?_, ?_, rfl, rfl, ?_, ?_, ?_, rfl⟩
  · intro s hs
    rcases hs with h | h | h | h <;> subst h <;> exact ⟨rfl, rfl, rfl⟩
  · intro s hs
    have h5 : ¬(s = "L5") := fun h => hs (Or.inl h)
    have h7 : ¬(s = "L7") := fun h => hs (Or.inr (Or.inl h))
    have h8 : ¬(s = "L8") := fun h => hs (Or.inr (Or.inr (Or.inl h)))
    have hs2 : ¬(s = "S2") := fun h => hs (Or.inr (Or.inr (Or.inr h)))
    refine ⟨?_, ?_, ?_⟩ <;>
      simp [simpleNDVIChangeDetection, simpleNDWIChangeDetection,
        simpleNDBIChangeDetection, h5, h7, h8, hs2]
  · intro idx h
    exact landsatIndices_unknown_index img "L8" idx h
  · intro s hs
    have h5 : ¬(s = "L5") := fun h => hs (Or.inl h)
    have h7 : ¬(s = "L7") := fun h => hs (Or.inr (Or.inl h))
    have h8 : ¬(s = "L8") := fun h => hs (Or.inr (Or.inr (Or.inl h)))
    have hs2 : ¬(s = "S2") := fun h => hs (Or.inr (Or.inr (Or.inr h)))
    simp [landsatIndices, landsatAll, h5, h7, h8, hs2]
  · unfold plotClass plotClassRun
    split <;> rfl

/-- C1 witness: the amended theorem applied at concrete inputs. -/
theorem exported_functions_partial_domain_witness :
    (simpleNDVIChangeDetection demoImg demoImg "L8" 0).isSome = true ∧
    simpleNDVIChangeDetection demoImg demoImg "LX" 0 = none ∧
    landsatIndices demoImg "L8" (some "FOO") = none :=
  ⟨((exported_functions_partial_domain demoImg demoImg demoImg 0 3 none "f"
      none none).1 "L8" (by decide)).1,
   ((exported_functions_partial_domain demoImg demoImg demoImg 0 3 none "f"
      none none).2.1 "LX" (by decide)).1,
   (exported_functions_partial_domain demoImg demoImg demoImg 0 3 none "f"
      none none).2.2.2.2.1 "FOO" (by decide)⟩

/--
C5: the claim says `exports.max` and `exports.min` return THE maximum and
minimum value of the image, aggregated by a Reducer over the pixels of a
region.  The code instead calls `image.reduce`, which reduces ACROSS BANDS
at each pixel: on a single-band image with pixel values 0 and 5, both
`Geet.max` and `Geet.min` return that band unchanged (renamed max and min),
an image still holding two distinct pixel values, not the single regional
aggregate `specRegionMax` the glossary describes.
-/
theorem max_min_are_bandwise_not_regional :
    max demoMaxImg = ⟨[("max", [Px.const 0, Px.const 5])], []⟩ ∧
    min demoMaxImg = ⟨[("min", [Px.const 0, Px.const 5])], []⟩ ∧
    specRegionMax demoMaxImg = Px.pmax (Px.const 0) (Px.const 5) ∧
    bandVals (max demoMaxImg) "max" ≠
      [specRegionMax demoMaxImg, specRegionMax demoMaxImg] :=
  ⟨rfl, rfl, rfl, by decide⟩

/--
C7 counterexample: on a concrete image holding a B1 band, the image
returned by `toaReflectance(image, 10)` does not contain B1 (the function
returns only the computed reflectance band), so the original bands are not
present in the result.
-/
theorem toaReflectance_drops_input_bands :
    (findBand demoToa "B1").isSome = true ∧
    findBand (toaReflectance demoToa 10) "B1" = none :=
  ⟨rfl, rfl⟩

/--
C7 amended: `toaRadiance` is frame-preserving: it returns the input image
with the computed TOA_Radiance band appended, every original band present
and unchanged.  `toaReflectance` is not: it returns only the computed
band, renamed B&lt;n&gt;_TOA_Reflectance, and drops every original band.
-/
theorem toaRadiance_appends_toaReflectance_replaces :
    ∀ (img : Image) (band : ℕ),
    (∃ X : List Band, (toaRadiance img band).bands = img.bands ++ X ∧
      X.all (fun bd => bd.1 == "TOA_Radiance") = true) ∧
    (toaReflectance img band).bands.all
      (fun bd => bd.1 == "B" ++ toString band ++ "_TOA_Reflectance") = true := by
  intro img band
  constructor
  · refine ⟨_, rfl, ?_⟩
    cases hf : findBand img ("B" ++ toString band) <;>
      simp [rename1, mapBands, selectBand, hf]
  · cases hf : findBand img ("B" ++ toString band) <;>
      simp [toaReflectance, rename1, mapBands, selectBand, hf]

/--
C8: `brightnessTempL8_K` and `brightnessTempL8_C` compute the same
Brightness_Temperature band whatever the single argument is (true, false
or omitted): both branches of each function read only the band-10
constants and the TOA_Radiance band (the B11 constants of the double-band
branch are dead), so the two branches are extensionally equal; the Celsius
version is the Kelvin band with 273.5 subtracted, in both branches.
-/
theorem brightnessTempL8_branches_equal :
    ∀ (img : Image) (o₁ o₂ : Option Bool),
    brightnessTempL8_K img o₁ = brightnessTempL8_K img o₂ ∧
    brightnessTempL8_C img o₁ = brightnessTempL8_C img o₂ ∧
    (∃ X : List Band,
      (brightnessTempL8_K img o₁).bands = img.bands ++ X ∧
      (brightnessTempL8_C img o₁).bands = img.bands ++
        X.map (fun bd => (bd.1, bd.2.map (fun v => Px.sub v (Px.const 273.5))))) := by
  intro img o₁ o₂
  cases o₁ <;> cases o₂ <;> exact ⟨rfl, rfl, _, rfl, rfl⟩

/--
C2: the claim says `geneiv(C, B)` returns the pair (lambdas, eigenvecs),
with `geneiv(c1,b1)[0]` the generalized eigenvalues and `geneiv(c1,b1)[1]`
the eigenvector matrix, as imad1 consumes them.  The code's
`return (lambdas, eigenvecs)` is the JavaScript comma operator: geneiv
returns the single eigenvector ee.Array handle, numeric indexing of that
handle is undefined for every index, and the very next use
(`lambdas.sqrt()` in imad1) throws a TypeError.
-/
theorem geneiv_comma_returns_single :
    ∀ (c b : EE) (i : ℕ),
    jsIndex (geneiv c b) i = none ∧
    jsMethod (jsIndex (geneiv c b) 0) "sqrt" [] =
      Except.error "TypeError: cannot call a method of undefined" :=
  fun _ _ _ => ⟨rfl, rfl⟩

/--
C3: the claim says imad returns the accumulator unchanged once its done
flag is set, with done computed from max |rhos - lastrhos| &lt; 0.001.  In the
code, `imad` evaluates `imad1(current, prev)` eagerly (JavaScript call
arguments) on every call, and imad1 always throws before computing done:
`geneiv(c1,b1)[0]` is undefined (see `Geet.geneiv`) and `lambdas.sqrt()`
is a method call on undefined.  So every application of imad throws a
TypeError, for every accumulator, done or not.
-/
theorem imad_always_throws :
    ∀ current prev : EE,
    imad current prev =
      Except.error "TypeError: cannot call a method of undefined" ∧
    imad1 current prev =
      Except.error "TypeError: cannot call a method of undefined" :=
  fun _ _ => ⟨rfl, rfl⟩

theorem colorRun_preserves_state (tab : List (String × String)) (c : String) :
    (colorRun tab c).2 = tab := by
  unfold colorRun
  split <;> rfl

theorem plotClassRun_preserves_state (tab : List (String × String))
    (img : Image) (n : ℕ) (ttl : Option String) :
    (plotClassRun tab img n ttl).2 = tab := by
  unfold plotClassRun
  split <;> rfl

/--
C6: the library keeps no persistent state and does no local data
processing: the COLOR table is its only module-level binding, and for
EVERY exported function of src/geet.js (all 49, each embedded above in
state-passing style), a call returns the COLOR table unchanged, and
re-running the call with equal arguments from the returned state yields an
equal result — the result depends only on the arguments and the composed
remote calls.  Images and ee handles are immutable values in the
embedding, matching the source, which never assigns to an argument
property or to COLOR.
-/
theorem library_is_stateless :
    ∀ (tab : List (String × String)) (img img1 img2 : Image)
      (ie te e1 e2 e3 e4 : EE) (oe1 : Option EE) (s1 s2 fn : String)
      (os1 : Option String) (q1 : ℚ) (oq1 oq2 oq3 : Option ℚ)
      (ob1 : Option Bool) (n1 : ℕ) (on1 : Option ℕ),
    ((svmRun tab ie te fn os1 oq1).2 = tab ∧
     (svmRun (svmRun tab ie te fn os1 oq1).2 ie te fn os1 oq1).1 =
       (svmRun tab ie te fn os1 oq1).1) ∧
    ((cartRun tab ie te fn oq1).2 = tab ∧
     (cartRun (cartRun tab ie te fn oq1).2 ie te fn oq1).1 =
       (cartRun tab ie te fn oq1).1) ∧
    ((rfRun tab ie te fn oq1).2 = tab ∧
     (rfRun (rfRun tab ie te fn oq1).2 ie te fn oq1).1 =
       (rfRun tab ie te fn oq1).1) ∧
    ((kmeansRun tab ie oe1 oq1 oq2 oq3).2 = tab ∧
     (kmeansRun (kmeansRun tab ie oe1 oq1 oq2 oq3).2 ie oe1 oq1 oq2 oq3).1 =
       (kmeansRun tab ie oe1 oq1 oq2 oq3).1) ∧
    ((simpleNDVIChangeDetectionRun tab img1 img2 s1 q1).2 = tab ∧
     (simpleNDVIChangeDetectionRun
         (simpleNDVIChangeDetectionRun tab img1 img2 s1 q1).2 img1 img2 s1 q1).1 =
       (simpleNDVIChangeDetectionRun tab img1 img2 s1 q1).1) ∧
    ((simpleNDWIChangeDetectionRun tab img1 img2 s1 q1).2 = tab ∧
     (simpleNDWIChangeDetectionRun
         (simpleNDWIChangeDetectionRun tab img1 img2 s1 q1).2 img1 img2 s1 q1).1 =
       (simpleNDWIChangeDetectionRun tab img1 img2 s1 q1).1) ∧
    ((simpleNDBIChangeDetectionRun tab img1 img2 s1 q1).2 = tab ∧
     (simpleNDBIChangeDetectionRun
         (simpleNDBIChangeDetectionRun tab img1 img2 s1 q1).2 img1 img2 s1 q1).1 =
       (simpleNDBIChangeDetectionRun tab img1 img2 s1 q1).1) ∧
    ((textureRun tab ie q1).2 = tab ∧
     (textureRun (textureRun tab ie q1).2 ie q1).1 = (textureRun tab ie q1).1) ∧
    ((majorityRun tab ie q1).2 = tab ∧
     (majorityRun (majorityRun tab ie q1).2 ie q1).1 =
       (majorityRun tab ie q1).1) ∧
    ((colorRun tab s1).2 = tab ∧
     (colorRun (colorRun tab s1).2 s1).1 = (colorRun tab s1).1) ∧
    ((plotRGBRun tab img os1).2 = tab ∧
     (plotRGBRun (plotRGBRun tab img os1).2 img os1).1 =
       (plotRGBRun tab img os1).1) ∧
    ((plotNDVIRun tab img os1).2 = tab ∧
     (plotNDVIRun (plotNDVIRun tab img os1).2 img os1).1 =
       (plotNDVIRun tab img os1).1) ∧
    ((plotNDWIRun tab img os1).2 = tab ∧
     (plotNDWIRun (plotNDWIRun tab img os1).2 img os1).1 =
       (plotNDWIRun tab img os1).1) ∧
    ((plotClassRun tab img n1 os1).2 = tab ∧
     (plotClassRun (plotClassRun tab img n1 os1).2 img n1 os1).1 =
       (plotClassRun tab img n1 os1).1) ∧
    ((landsatIndicesRun tab img s1 os1).2 = tab ∧
     (landsatIndicesRun (landsatIndicesRun tab img s1 os1).2 img s1 os1).1 =
       (landsatIndicesRun tab img s1 os1).1) ∧
    ((sentinel2IndicesRun tab img os1).2 = tab ∧
     (sentinel2IndicesRun (sentinel2IndicesRun tab img os1).2 img os1).1 =
       (sentinel2IndicesRun tab img os1).1) ∧
    ((loadImgRun tab os1 oq1 oe1 ob1).2 = tab ∧
     (loadImgRun (loadImgRun tab os1 oq1 oe1 ob1).2 os1 oq1 oe1 ob1).1 =
       (loadImgRun tab os1 oq1 oe1 ob1).1) ∧
    ((toaRadianceRun tab img n1).2 = tab ∧
     (toaRadianceRun (toaRadianceRun tab img n1).2 img n1).1 =
       (toaRadianceRun tab img n1).1) ∧
    ((toaReflectanceRun tab img n1).2 = tab ∧
     (toaReflectanceRun (toaReflectanceRun tab img n1).2 img n1).1 =
       (toaReflectanceRun tab img n1).1) ∧
    ((toaReflectanceL8Run tab img n1 os1).2 = tab ∧
     (toaReflectanceL8Run (toaReflectanceL8Run tab img n1 os1).2 img n1 os1).1 =
       (toaReflectanceL8Run tab img n1 os1).1) ∧
    ((brightnessTempL5_KRun tab img).2 = tab ∧
     (brightnessTempL5_KRun (brightnessTempL5_KRun tab img).2 img).1 =
       (brightnessTempL5_KRun tab img).1) ∧
    ((brightnessTempL5_CRun tab img).2 = tab ∧
     (brightnessTempL5_CRun (brightnessTempL5_CRun tab img).2 img).1 =
       (brightnessTempL5_CRun tab img).1) ∧
    ((brightnessTempL7_KRun tab img).2 = tab ∧
     (brightnessTempL7_KRun (brightnessTempL7_KRun tab img).2 img).1 =
       (brightnessTempL7_KRun tab img).1) ∧
    ((brightnessTempL7_CRun tab img).2 = tab ∧
     (brightnessTempL7_CRun (brightnessTempL7_CRun tab img).2 img).1 =
       (brightnessTempL7_CRun tab img).1) ∧
    ((brightnessTempL8_KRun tab img ob1).2 = tab ∧
     (brightnessTempL8_KRun (brightnessTempL8_KRun tab img ob1).2 img ob1).1 =
       (brightnessTempL8_KRun tab img ob1).1) ∧
    ((brightnessTempL8_CRun tab img ob1).2 = tab ∧
     (brightnessTempL8_CRun (brightnessTempL8_CRun tab img ob1).2 img ob1).1 =
       (brightnessTempL8_CRun tab img ob1).1) ∧
    ((resampleRun tab ie q1).2 = tab ∧
     (resampleRun (resampleRun tab ie q1).2 ie q1).1 =
       (resampleRun tab ie q1).1) ∧
    ((resampleBandRun tab ie q1).2 = tab ∧
     (resampleBandRun (resampleBandRun tab ie q1).2 ie q1).1 =
       (resampleBandRun tab ie q1).1) ∧
    ((loadS2ByIdRun tab s1).2 = tab ∧
     (loadS2ByIdRun (loadS2ByIdRun tab s1).2 s1).1 =
       (loadS2ByIdRun tab s1).1) ∧
    ((loadL5ByPathRowRun tab os1 e1 e2 e3 e4).2 = tab ∧
     (loadL5ByPathRowRun (loadL5ByPathRowRun tab os1 e1 e2 e3 e4).2
         os1 e1 e2 e3 e4).1 =
       (loadL5ByPathRowRun tab os1 e1 e2 e3 e4).1) ∧
    ((loadL7ByPathRowRun tab os1 e1 e2 e3 e4).2 = tab ∧
     (loadL7ByPathRowRun (loadL7ByPathRowRun tab os1 e1 e2 e3 e4).2
         os1 e1 e2 e3 e4).1 =
       (loadL7ByPathRowRun tab os1 e1 e2 e3 e4).1) ∧
    ((loadL8ByPathRowRun tab os1 e1 e2 e3 e4).2 = tab ∧
     (loadL8ByPathRowRun (loadL8ByPathRowRun tab os1 e1 e2 e3 e4).2
         os1 e1 e2 e3 e4).1 =
       (loadL8ByPathRowRun tab os1 e1 e2 e3 e4).1) ∧
    ((s2MosaicRun tab s1 s2 oe1 ob1).2 = tab ∧
     (s2MosaicRun (s2MosaicRun tab s1 s2 oe1 ob1).2 s1 s2 oe1 ob1).1 =
       (s2MosaicRun tab s1 s2 oe1 ob1).1) ∧
    ((landsat5MosaicRun tab s1 s2 oe1 ob1).2 = tab ∧
     (landsat5MosaicRun (landsat5MosaicRun tab s1 s2 oe1 ob1).2 s1 s2 oe1 ob1).1 =
       (landsat5MosaicRun tab s1 s2 oe1 ob1).1) ∧
    ((landsat7MosaicRun tab s1 s2 oe1 ob1).2 = tab ∧
     (landsat7MosaicRun (landsat7MosaicRun tab s1 s2 oe1 ob1).2 s1 s2 oe1 ob1).1 =
       (landsat7MosaicRun tab s1 s2 oe1 ob1).1) ∧
    ((landsat8MosaicRun tab s1 s2 oe1 ob1).2 = tab ∧
     (landsat8MosaicRun (landsat8MosaicRun tab s1 s2 oe1 ob1).2 s1 s2 oe1 ob1).1 =
       (landsat8MosaicRun tab s1 s2 oe1 ob1).1) ∧
    ((modisNdviMosaicRun tab s1 s2 oe1 ob1).2 = tab ∧
     (modisNdviMosaicRun (modisNdviMosaicRun tab s1 s2 oe1 ob1).2
         s1 s2 oe1 ob1).1 =
       (modisNdviMosaicRun tab s1 s2 oe1 ob1).1) ∧
    ((maxRun tab img).2 = tab ∧
     (maxRun (maxRun tab img).2 img).1 = (maxRun tab img).1) ∧
    ((minRun tab img).2 = tab ∧
     (minRun (minRun tab img).2 img).1 = (minRun tab img).1) ∧
    ((ndviL5Run tab img).2 = tab ∧
     (ndviL5Run (ndviL5Run tab img).2 img).1 = (ndviL5Run tab img).1) ∧
    ((ndviL7Run tab img).2 = tab ∧
     (ndviL7Run (ndviL7Run tab img).2 img).1 = (ndviL7Run tab img).1) ∧
    ((ndviL8Run tab img).2 = tab ∧
     (ndviL8Run (ndviL8Run tab img).2 img).1 = (ndviL8Run tab img).1) ∧
    ((ndviS2Run tab img).2 = tab ∧
     (ndviS2Run (ndviS2Run tab img).2 img).1 = (ndviS2Run tab img).1) ∧
    ((propVegRun tab img).2 = tab ∧
     (propVegRun (propVegRun tab img).2 img).1 = (propVegRun tab img).1) ∧
    ((landSurfaceEmissivityRun tab img).2 = tab ∧
     (landSurfaceEmissivityRun (landSurfaceEmissivityRun tab img).2 img).1 =
       (landSurfaceEmissivityRun tab img).1) ∧
    ((landSurfaceTemperatureRun tab img).2 = tab ∧
     (landSurfaceTemperatureRun (landSurfaceTemperatureRun tab img).2 img).1 =
       (landSurfaceTemperatureRun tab img).1) ∧
    ((exportImgRun tab img fn oq1 oq2).2 = tab ∧
     (exportImgRun (exportImgRun tab img fn oq1 oq2).2 img fn oq1 oq2).1 =
       (exportImgRun tab img fn oq1 oq2).1) ∧
    ((cloudMaskRun tab ie).2 = tab ∧
     (cloudMaskRun (cloudMaskRun tab ie).2 ie).1 = (cloudMaskRun tab ie).1) ∧
    ((pcaRun tab ie on1 oq1 oq2).2 = tab ∧
     (pcaRun (pcaRun tab ie on1 oq1 oq2).2 ie on1 oq1 oq2).1 =
       (pcaRun tab ie on1 oq1 oq2).1) := by
  intro tab img img1 img2 ie te e1 e2 e3 e4 oe1 s1 s2 fn os1 q1 oq1 oq2 oq3
    ob1 n1 on1
  repeat' apply And.intro
  all_goals first
    | rfl
    | exact colorRun_preserves_state tab s1
    | exact plotClassRun_preserves_state tab img n1 os1
    | rw [colorRun_preserves_state]
    | rw [plotClassRun_preserves_state]

end Geet
